import Mathlib

/-!
Verification of the escpos-rs code-page subsystem.

This file embeds, as executable Lean definitions, the code-page tables of
`src/domain/page_codes.rs` and the dispatch code around them
(`PageCodeTable::get_table`, `TryFrom<PageCode> for PageCodeTable`), together
with spec-modelled definitions for the parts of the repository whose source is
not available (the text encoder and the EAN13 check-digit computation), and
proves the stated properties about them.

Modelling conventions: a Rust `HashMap<char, u8>` is embedded as an
association list `List (Char × Nat)` with unique keys in insertion order, where
inserting an already present key replaces its binding (the observable
behaviour of `HashMap::insert`, and hence of `collect()` on a pair iterator);
`u8` arithmetic (`as u8`) is embedded as `Nat` arithmetic modulo 256.
-/

set_option maxRecDepth 10000

namespace Escpos

/-- Insertion of a key/value pair into an association list, replacing the
binding of an already present key.  This models `HashMap::insert` (and hence
the behaviour of `collect::<HashMap<_, _>>()`, where a later pair with the
same key overwrites an earlier one). -/
def insertKV (m : List (Char × Nat)) (kv : Char × Nat) : List (Char × Nat) :=
  match m with
  | [] => [kv]
  | (k, v) :: rest => if k = kv.1 then kv :: rest else (k, v) :: insertKV rest kv

/-- Models `.collect::<HashMap<char, u8>>()` applied to a sequence of pairs:
pairs are inserted left to right, a later pair with an equal key replacing the
earlier binding. -/
def collectKV (l : List (Char × Nat)) : List (Char × Nat) :=
  l.foldl insertKV []

/-- Models `.into_iter().enumerate()`, starting the index count at `n`
(the call sites use `n = 0`). -/
def enumFrom {α : Type} (n : Nat) : List α → List (Nat × α)
  | [] => []
  | c :: cs => (n, c) :: enumFrom (n + 1) cs

/-- Table constructor used by the tables without a placeholder filter:
`[...].into_iter().enumerate().map(|(i, c)| (c, (i + base) as u8)).collect()`.
The `as u8` conversion is modelled by `% 256`. -/
def buildTable (base : Nat) (cs : List Char) : List (Char × Nat) :=
  collectKV ((enumFrom 0 cs).map (fun p => (p.2, (p.1 + base) % 256)))

/-- Table constructor used by the tables with `'\0'` placeholder slots:
`[...].into_iter().enumerate().filter(|(_, c)| *c != '\0')
     .map(|(i, c)| (c, (i + base) as u8)).collect()`.
The filter runs after `enumerate`, so the surviving indices are the original
positions in the literal list. -/
def buildTableNoHoles (base : Nat) (cs : List Char) : List (Char × Nat) :=
  collectKV (((enumFrom 0 cs).filter (fun p => p.2 ≠ '\u0000')).map
    (fun p => (p.2, (p.1 + base) % 256)))

/-- Lookup of a key in an association list; models `HashMap::get`. -/
def lookupKV (k : Char) : List (Char × Nat) → Option Nat
  | [] => none
  | (a, v) :: rest => if a = k then some v else lookupKV k rest

/-- The value attached to the LAST occurrence of key `k` in a list of pairs
(`none` when `k` is absent).  This is what collecting into a `HashMap`
retains for `k`. -/
def lastVal (k : Char) : List (Char × Nat) → Option Nat
  | [] => none
  | (a, v) :: rest =>
      match lastVal k rest with
      | some w => some w
      | none => if a = k then some v else none

/-- A table is injective when no two entries with distinct character keys
carry the same byte value. -/
def TableInjective (t : List (Char × Nat)) : Prop :=
  ∀ p ∈ t, ∀ q ∈ t, p.1 ≠ q.1 → p.2 ≠ q.2

instance (t : List (Char × Nat)) : Decidable (TableInjective t) :=
  inferInstanceAs (Decidable (∀ p ∈ t, ∀ q ∈ t, p.1 ≠ q.1 → p.2 ≠ q.2))

/-! ### Generic facts about the table constructors -/

theorem lookup_insertKV (m : List (Char × Nat)) (kv : Char × Nat) (k : Char) :
    lookupKV k (insertKV m kv) =
      if kv.1 = k then some kv.2 else lookupKV k m := by
  obtain ⟨b, w⟩ := kv
  induction m with
  | nil => simp [insertKV, lookupKV]
  | cons hd tl ih =>
      obtain ⟨a, v⟩ := hd
      by_cases hak : a = b
      · subst hak
        by_cases hk : a = k
        · subst hk
          simp [insertKV, lookupKV]
        · simp [insertKV, lookupKV, hk]
      · by_cases hk2 : a = k
        · subst hk2
          have hba : ¬ (b = a) := fun h => hak h.symm
          simp [insertKV, lookupKV, hak, hba]
        · simp [insertKV, lookupKV, hak, hk2, ih]

theorem lookup_foldl (l : List (Char × Nat)) :
    ∀ (m : List (Char × Nat)) (k : Char),
      lookupKV k (l.foldl insertKV m) =
        match lastVal k l with
        | some v => some v
        | none => lookupKV k m := by
  induction l with
  | nil => intro m k; rfl
  | cons kv rest ih =>
      intro m k
      simp only [List.foldl_cons, lastVal]
      rw [ih (insertKV m kv) k]
      cases h : lastVal k rest with
      | some w => rfl
      | none =>
          simp only [lookup_insertKV]
          by_cases hk : kv.1 = k
          · simp [hk]
          · simp [hk]

theorem lookup_collectKV (l : List (Char × Nat)) (k : Char) :
    lookupKV k (collectKV l) = lastVal k l := by
  unfold collectKV
  rw [lookup_foldl]
  cases lastVal k l <;> rfl

theorem mem_insertKV {m : List (Char × Nat)} {kv p : Char × Nat}
    (h : p ∈ insertKV m kv) : p = kv ∨ p ∈ m := by
  induction m with
  | nil =>
      simp only [insertKV, List.mem_singleton] at h
      exact Or.inl h
  | cons hd tl ih =>
      obtain ⟨a, v⟩ := hd
      simp only [insertKV] at h
      split at h
      · rcases List.mem_cons.mp h with h | h
        · exact Or.inl h
        · exact Or.inr (List.mem_cons_of_mem _ h)
      · rcases List.mem_cons.mp h with h | h
        · exact Or.inr (h ▸ List.mem_cons_self _ _)
        · rcases ih h with h | h
          · exact Or.inl h
          · exact Or.inr (List.mem_cons_of_mem _ h)

theorem mem_foldl_insertKV (l : List (Char × Nat)) :
    ∀ (m : List (Char × Nat)) (p : Char × Nat),
      p ∈ l.foldl insertKV m → p ∈ l ∨ p ∈ m := by
  induction l with
  | nil => intro m p h; exact Or.inr h
  | cons kv rest ih =>
      intro m p h
      rcases ih (insertKV m kv) p h with h | h
      · exact Or.inl (List.mem_cons_of_mem _ h)
      · rcases mem_insertKV h with h | h
        · exact Or.inl (h ▸ List.mem_cons_self _ _)
        · exact Or.inr h

theorem mem_collectKV {l : List (Char × Nat)} {p : Char × Nat}
    (h : p ∈ collectKV l) : p ∈ l := by
  rcases mem_foldl_insertKV l [] p h with h | h
  · exact h
  · cases h

/-- Every entry of a collected table comes from the input pair sequence, so a
table built from pairs with pairwise distinct values is injective. -/
theorem collectKV_injective {l : List (Char × Nat)}
    (h : (l.map Prod.snd).Nodup) : TableInjective (collectKV l) := by
  intro p hp q hq hne hval
  exact hne (congrArg Prod.fst
    (List.inj_on_of_nodup_map h (mem_collectKV hp) (mem_collectKV hq) hval))

theorem enumFrom_map_fst (n : Nat) (cs : List Char) :
    (enumFrom n cs).map Prod.fst = List.range' n cs.length := by
  induction cs generalizing n with
  | nil => rfl
  | cons c rest ih =>
      simp only [enumFrom, List.map_cons, List.length_cons, List.range'_succ]
      rw [ih (n + 1)]

theorem enumFrom_nodup (n : Nat) (cs : List Char) : (enumFrom n cs).Nodup :=
  List.Nodup.of_map Prod.fst
    (by rw [enumFrom_map_fst]; exact List.nodup_range' n cs.length)

theorem mem_enumFrom {p : Nat × Char} {n : Nat} {cs : List Char}
    (h : p ∈ enumFrom n cs) :
    n ≤ p.1 ∧ p.1 < n + cs.length ∧ cs.get? (p.1 - n) = some p.2 := by
  induction cs generalizing n with
  | nil => cases h
  | cons c rest ih =>
      rcases List.mem_cons.mp h with h | h
      · subst h
        refine ⟨Nat.le_refl n, by simp, ?_⟩
        simp
      · obtain ⟨h1, h2, h3⟩ := ih h
        refine ⟨by omega, by simp only [List.length_cons]; omega, ?_⟩
        have hn : p.1 - n = (p.1 - (n + 1)) + 1 := by omega
        rw [hn, List.get?_cons_succ]
        exact h3

theorem enumFrom_fst_inj {n : Nat} {cs : List Char} {p q : Nat × Char}
    (hp : p ∈ enumFrom n cs) (hq : q ∈ enumFrom n cs) (h : p.1 = q.1) :
    p = q := by
  have hmap : ((enumFrom n cs).map Prod.fst).Nodup := by
    rw [enumFrom_map_fst]; exact List.nodup_range' n cs.length
  exact List.inj_on_of_nodup_map hmap hp hq h

theorem values_nodup_nofilter (base : Nat) (cs : List Char)
    (hlen : base + cs.length ≤ 256) :
    (((enumFrom 0 cs).map (fun p => (p.2, (p.1 + base) % 256))).map
      Prod.snd).Nodup := by
  rw [List.map_map]
  refine List.Nodup.map_on ?_ (enumFrom_nodup 0 cs)
  intro p hp q hq hfe
  simp only [Function.comp_apply] at hfe
  obtain ⟨-, hp2, -⟩ := mem_enumFrom hp
  obtain ⟨-, hq2, -⟩ := mem_enumFrom hq
  apply enumFrom_fst_inj hp hq
  have e1 : (p.1 + base) % 256 = p.1 + base := Nat.mod_eq_of_lt (by omega)
  have e2 : (q.1 + base) % 256 = q.1 + base := Nat.mod_eq_of_lt (by omega)
  omega

theorem values_nodup_filter (base : Nat) (cs : List Char)
    (hlen : base + cs.length ≤ 256) :
    ((((enumFrom 0 cs).filter (fun p => p.2 ≠ '\u0000')).map
      (fun p => (p.2, (p.1 + base) % 256))).map Prod.snd).Nodup := by
  rw [List.map_map]
  refine List.Nodup.map_on ?_ (List.Nodup.filter _ (enumFrom_nodup 0 cs))
  intro p hp q hq hfe
  have hp' := List.mem_of_mem_filter hp
  have hq' := List.mem_of_mem_filter hq
  simp only [Function.comp_apply] at hfe
  obtain ⟨-, hp2, -⟩ := mem_enumFrom hp'
  obtain ⟨-, hq2, -⟩ := mem_enumFrom hq'
  apply enumFrom_fst_inj hp' hq'
  have e1 : (p.1 + base) % 256 = p.1 + base := Nat.mod_eq_of_lt (by omega)
  have e2 : (q.1 + base) % 256 = q.1 + base := Nat.mod_eq_of_lt (by omega)
  omega

theorem buildTable_injective (base : Nat) (cs : List Char)
    (h : base + cs.length ≤ 256) : TableInjective (buildTable base cs) :=
  collectKV_injective (values_nodup_nofilter base cs h)

theorem buildTableNoHoles_injective (base : Nat) (cs : List Char)
    (h : base + cs.length ≤ 256) :
    TableInjective (buildTableNoHoles base cs) :=
  collectKV_injective (values_nodup_filter base cs h)

theorem buildTable_values_range (base : Nat) (cs : List Char)
    (h : base + cs.length ≤ 256) :
    ∀ p ∈ buildTable base cs, base ≤ p.2 ∧ p.2 ≤ 255 := by
  intro p hp
  obtain ⟨q, hq, rfl⟩ := List.mem_map.mp (mem_collectKV hp)
  obtain ⟨-, hq2, -⟩ := mem_enumFrom hq
  have e : (q.1 + base) % 256 = q.1 + base := Nat.mod_eq_of_lt (by omega)
  simp only [e]
  omega

theorem buildTableNoHoles_values_range (base : Nat) (cs : List Char)
    (h : base + cs.length ≤ 256) :
    ∀ p ∈ buildTableNoHoles base cs, base ≤ p.2 ∧ p.2 ≤ 255 := by
  intro p hp
  obtain ⟨q, hq, rfl⟩ := List.mem_map.mp (mem_collectKV hp)
  obtain ⟨-, hq2, -⟩ := mem_enumFrom (List.mem_of_mem_filter hq)
  have e : (q.1 + base) % 256 = q.1 + base := Nat.mod_eq_of_lt (by omega)
  simp only [e]
  omega

theorem lastVal_eq_none {k : Char} {l : List (Char × Nat)}
    (h : k ∉ l.map Prod.fst) : lastVal k l = none := by
  induction l with
  | nil => rfl
  | cons kv rest ih =>
      simp only [List.map_cons, List.mem_cons, not_or] at h
      obtain ⟨h1, h2⟩ := h
      simp only [lastVal, ih h2]
      rw [if_neg (fun he => h1 he.symm)]

theorem enum_map_fst_chars (base n : Nat) (cs : List Char) :
    (((enumFrom n cs).map (fun p => (p.2, (p.1 + base) % 256))).map
      Prod.fst) = cs := by
  induction cs generalizing n with
  | nil => rfl
  | cons c rest ih =>
      simp only [enumFrom, List.map_cons]
      rw [ih (n + 1)]

theorem lastVal_filter_none {base n : Nat} {rest : List Char} {d : Char}
    (hnotmem : d ∉ rest) :
    lastVal d (((enumFrom n rest).filter (fun p => p.2 ≠ '\u0000')).map
      (fun p => (p.2, (p.1 + base) % 256))) = none := by
  apply lastVal_eq_none
  intro hmem
  rw [List.map_map] at hmem
  obtain ⟨q, hq, hq2⟩ := List.mem_map.mp hmem
  obtain ⟨-, -, hg⟩ := mem_enumFrom (List.mem_of_mem_filter hq)
  have hqd : q.2 = d := by simpa [Function.comp] using hq2
  rw [hqd] at hg
  exact hnotmem (List.mem_iff_get?.mpr ⟨q.1 - n, hg⟩)

/-- A character that occurs in the literal list, last at index `i`, is mapped
by the collected pair sequence (without filter) to `(base + i) as u8`. -/
theorem lastVal_enum_map (base : Nat) (cs : List Char) :
    ∀ (n i : Nat) (c : Char),
      cs.get? i = some c →
      (∀ j, i < j → cs.get? j ≠ some c) →
      lastVal c ((enumFrom n cs).map (fun p => (p.2, (p.1 + base) % 256))) =
        some ((n + i + base) % 256) := by
  induction cs with
  | nil => intro n i c h _; simp [List.get?] at h
  | cons d rest ih =>
      intro n i c hget hlater
      cases i with
      | zero =>
          have hc : d = c := by simpa using hget
          subst hc
          have hnotmem : d ∉ rest := by
            intro hmem
            obtain ⟨j, hj⟩ := List.mem_iff_get?.mp hmem
            exact hlater (j + 1) (Nat.succ_pos j)
              (by simpa [List.get?_cons_succ] using hj)
          have hnone :
              lastVal d ((enumFrom (n + 1) rest).map
                (fun p => (p.2, (p.1 + base) % 256))) = none := by
            apply lastVal_eq_none
            rw [enum_map_fst_chars]
            exact hnotmem
          simp only [enumFrom, List.map_cons, lastVal, hnone]
          simp
      | succ i' =>
          have hget' : rest.get? i' = some c := by simpa using hget
          have hlater' : ∀ j, i' < j → rest.get? j ≠ some c := by
            intro j hj h
            exact hlater (j + 1) (by omega) (by simpa using h)
          simp only [enumFrom, List.map_cons, lastVal,
            ih (n + 1) i' c hget' hlater']
          have harith : n + 1 + i' + base = n + (i' + 1) + base := by omega
          rw [harith]

/-- A non-placeholder character that occurs in the literal list, last at index
`i`, is mapped by the collected pair sequence (with the `'\0'` filter) to
`(base + i) as u8`. -/
theorem lastVal_enum_filter_map (base : Nat) (cs : List Char) :
    ∀ (n i : Nat) (c : Char),
      cs.get? i = some c → c ≠ '\u0000' →
      (∀ j, i < j → cs.get? j ≠ some c) →
      lastVal c (((enumFrom n cs).filter (fun p => p.2 ≠ '\u0000')).map
        (fun p => (p.2, (p.1 + base) % 256))) =
        some ((n + i + base) % 256) := by
  induction cs with
  | nil => intro n i c h _ _; simp [List.get?] at h
  | cons d rest ih =>
      intro n i c hget hnull hlater
      cases i with
      | zero =>
          have hc : d = c := by simpa using hget
          subst hc
          have hnotmem : d ∉ rest := by
            intro hmem
            obtain ⟨j, hj⟩ := List.mem_iff_get?.mp hmem
            exact hlater (j + 1) (Nat.succ_pos j)
              (by simpa [List.get?_cons_succ] using hj)
          have hcond : (decide ((n, d).2 ≠ '\u0000')) = true := by
            simpa using hnull
          simp only [enumFrom, List.filter_cons, hcond, if_true,
            List.map_cons, lastVal, lastVal_filter_none hnotmem]
          simp
      | succ i' =>
          have hget' : rest.get? i' = some c := by simpa using hget
          have hlater' : ∀ j, i' < j → rest.get? j ≠ some c := by
            intro j hj h
            exact hlater (j + 1) (by omega) (by simpa using h)
          have harith : n + (i' + 1) + base = n + 1 + i' + base := by omega
          rw [harith]
          simp only [enumFrom, List.filter_cons]
          by_cases hd : (decide ((n, d).2 ≠ '\u0000')) = true
          · simp only [hd, if_true, List.map_cons, lastVal,
              ih (n + 1) i' c hget' hnull hlater']
          · simp only [hd, if_false]
            exact ih (n + 1) i' c hget' hnull hlater'

/-- Looking up a character whose last occurrence in the literal list is at
index `i` in an unfiltered table yields `base + i`. -/
theorem buildTable_lookup_index (base : Nat) (cs : List Char)
    (hlen : base + cs.length ≤ 256) (i : Nat) (c : Char)
    (hget : cs.get? i = some c)
    (hlater : ∀ j, i < j → cs.get? j ≠ some c) :
    lookupKV c (buildTable base cs) = some (base + i) := by
  unfold buildTable
  rw [lookup_collectKV, lastVal_enum_map base cs 0 i c hget hlater]
  have hi : i < cs.length := by
    rcases List.get?_eq_some.mp hget with ⟨h, -⟩
    exact h
  have harith : (0 + i + base) % 256 = base + i := by omega
  rw [harith]

/-- Looking up a non-placeholder character whose last occurrence in the
literal list is at index `i` in a filtered table yields `base + i`. -/
theorem buildTableNoHoles_lookup_index (base : Nat) (cs : List Char)
    (hlen : base + cs.length ≤ 256) (i : Nat) (c : Char)
    (hget : cs.get? i = some c) (hnull : c ≠ '\u0000')
    (hlater : ∀ j, i < j → cs.get? j ≠ some c) :
    lookupKV c (buildTableNoHoles base cs) = some (base + i) := by
  unfold buildTableNoHoles
  rw [lookup_collectKV,
    lastVal_enum_filter_map base cs 0 i c hget hnull hlater]
  have hi : i < cs.length := by
    rcases List.get?_eq_some.mp hget with ⟨h, -⟩
    exact h
  have harith : (0 + i + base) % 256 = base + i := by omega
  rw [harith]

/-- The placeholder `'\0'` is never a key of a filtered table. -/
theorem buildTableNoHoles_no_null (base : Nat) (cs : List Char) :
    lookupKV '\u0000' (buildTableNoHoles base cs) = none := by
  unfold buildTableNoHoles
  rw [lookup_collectKV]
  apply lastVal_eq_none
  intro hmem
  rw [List.map_map] at hmem
  obtain ⟨q, hq, hq2⟩ := List.mem_map.mp hmem
  have hqf := List.of_mem_filter hq
  have hqd : q.2 = '\u0000' := by simpa [Function.comp] using hq2
  simp [hqd] at hqf

/-- No entry of a filtered table carries the byte of a placeholder slot. -/
theorem buildTableNoHoles_hole_value_absent (base : Nat) (cs : List Char)
    (hlen : base + cs.length ≤ 256) (i : Nat)
    (hi : cs.get? i = some '\u0000') :
    ∀ p ∈ buildTableNoHoles base cs, p.2 ≠ base + i := by
  intro p hp
  obtain ⟨q, hq, rfl⟩ := List.mem_map.mp (mem_collectKV hp)
  have hqf := List.of_mem_filter hq
  obtain ⟨-, hq2, hq3⟩ := mem_enumFrom (List.mem_of_mem_filter hq)
  have hilen : i < cs.length := by
    rcases List.get?_eq_some.mp hi with ⟨h, -⟩
    exact h
  have e : (q.1 + base) % 256 = q.1 + base := Nat.mod_eq_of_lt (by omega)
  simp only [e]
  intro hcontra
  have hqi : q.1 = i := by omega
  rw [Nat.sub_zero, hqi, hi] at hq3
  have hq2n : q.2 = '\u0000' := Option.some.inj hq3.symm
  simp [hq2n] at hqf

/-- A bounded no-later-occurrence check extends to all indices, since
out-of-range lookups return `none`. -/
theorem noLater_of_ball {cs : List Char} {i : Nat} {c : Char}
    (h : ∀ j, j < cs.length → i < j → cs.get? j ≠ some c) :
    ∀ j, i < j → cs.get? j ≠ some c := by
  intro j hj
  by_cases hlen : j < cs.length
  · exact h j hlen hj
  · rw [List.get?_eq_none.mpr (by omega)]
    simp

theorem keys_insertKV (m : List (Char × Nat)) (kv : Char × Nat)
    (h : (m.map Prod.fst).Nodup) : ((insertKV m kv).map Prod.fst).Nodup := by
  induction m with
  | nil => simp [insertKV]
  | cons hd tl ih =>
      obtain ⟨a, v⟩ := hd
      simp only [List.map_cons, List.nodup_cons] at h
      obtain ⟨h1, h2⟩ := h
      simp only [insertKV]
      split
      · next hak =>
          simp only [List.map_cons, List.nodup_cons]
          exact ⟨hak ▸ h1, h2⟩
      · next hak =>
          simp only [List.map_cons, List.nodup_cons]
          refine ⟨?_, ih h2⟩
          intro hmem
          obtain ⟨q, hq, hq2⟩ := List.mem_map.mp hmem
          rcases mem_insertKV hq with rfl | hq'
          · exact hak hq2.symm
          · exact h1 (List.mem_map.mpr ⟨q, hq', hq2⟩)

theorem keys_foldl (l : List (Char × Nat)) :
    ∀ m, (m.map Prod.fst).Nodup →
      ((l.foldl insertKV m).map Prod.fst).Nodup := by
  induction l with
  | nil => intro m h; exact h
  | cons kv rest ih =>
      intro m h
      exact ih (insertKV m kv) (keys_insertKV m kv h)

/-- Collecting into a map always yields pairwise distinct keys. -/
theorem keys_collectKV (l : List (Char × Nat)) :
    ((collectKV l).map Prod.fst).Nodup := keys_foldl l [] (by simp)

/-- In an association list with distinct keys, every entry is found by
looking up its own key. -/
theorem lookup_of_mem_keysNodup {m : List (Char × Nat)} {p : Char × Nat}
    (h : (m.map Prod.fst).Nodup) (hp : p ∈ m) :
    lookupKV p.1 m = some p.2 := by
  induction m with
  | nil => cases hp
  | cons hd tl ih =>
      obtain ⟨a, v⟩ := hd
      simp only [List.map_cons, List.nodup_cons] at h
      obtain ⟨h1, h2⟩ := h
      rcases List.mem_cons.mp hp with rfl | hp'
      · simp [lookupKV]
      · have hne : ¬ (a = p.1) :=
          fun hae => h1 (List.mem_map.mpr ⟨p, hp', hae.symm⟩)
        simp only [lookupKV, if_neg hne]
        exact ih h2 hp'

/-- Looking up a character absent from the literal list in an unfiltered
table yields nothing. -/
theorem buildTable_lookup_none (base : Nat) (cs : List Char) (c : Char)
    (h : c ∉ cs) : lookupKV c (buildTable base cs) = none := by
  unfold buildTable
  rw [lookup_collectKV]
  apply lastVal_eq_none
  rw [enum_map_fst_chars]
  exact h

/-- If the character at index `i` of the literal list does not look up to
byte `base + i` in an unfiltered table (because a later duplicate won), then
no entry at all carries the byte `base + i`. -/
theorem buildTable_byte_absent (base : Nat) (cs : List Char)
    (hlen : base + cs.length ≤ 256) (i : Nat) (c : Char)
    (hci : cs.get? i = some c)
    (hlook : lookupKV c (buildTable base cs) ≠ some (base + i)) :
    ∀ p ∈ buildTable base cs, p.2 ≠ base + i := by
  unfold buildTable at hlook ⊢
  intro p hp hval
  have hlk := lookup_of_mem_keysNodup (keys_collectKV _) hp
  obtain ⟨q, hq, hpq⟩ := List.mem_map.mp (mem_collectKV hp)
  obtain ⟨-, hq2, hq3⟩ := mem_enumFrom hq
  have e : (q.1 + base) % 256 = q.1 + base := Nat.mod_eq_of_lt (by omega)
  have hsnd : q.1 + base = p.2 := by
    have h2 := congrArg Prod.snd hpq
    simpa [e] using h2
  have hq1 : q.1 = i := by omega
  rw [Nat.sub_zero, hq1, hci] at hq3
  have hfst : q.2 = p.1 := congrArg Prod.fst hpq
  have hqc : q.2 = c := (Option.some.inj hq3).symm
  apply hlook
  rw [← hqc, hfst, hlk, hval]

/-! ### The 31 code page tables -/

/-- Literal character list of the PC437 page code table (page_codes.rs). -/
def PC437_LIST : List Char := [
  'Ç', 'ü', 'é', 'â', 'ä', 'à', 'å', 'ç', 'ê', 'ë', 'è', 'ï', 'î', 'ì', 'Ä', 'Å',
  'É', 'æ', 'Æ', 'ô', 'ö', 'ò', 'û', 'ù', 'ÿ', 'Ö', 'Ü', '¢', '£', '¥', '₧', 'ƒ',
  'á', 'í', 'ó', 'ú', 'ñ', 'Ñ', 'ª', 'º', '¿', '⌐', '¬', '½', '¼', '¡', '«', '»',
  '░', '▒', '▓', '│', '┤', '╡', '╢', '╖', '╕', '╣', '║', '╗', '╝', '╜', '╛', '┐',
  '└', '┴', '┬', '├', '─', '┼', '╞', '╟', '╚', '╔', '╩', '╦', '╠', '═', '╬', '╧',
  '╨', '╤', '╥', '╙', '╘', '╒', '╓', '╫', '╪', '┘', '┌', '█', '▄', '▌', '▐', '▀',
  'α', 'ß', 'Γ', 'π', 'Σ', 'σ', 'µ', 'τ', 'Φ', 'Θ', 'Ω', 'δ', '∞', 'φ', 'ε', '∩',
  '≡', '±', '≥', '≤', '⌠', '⌡', '÷', '≈', '°', '∙', '·', '√', 'ⁿ', '²', '■', '\u00A0'
]

/-- PC437 page code table. -/
def PC437_TABLE : List (Char × Nat) := buildTable 0x80 PC437_LIST

/-- Literal character list of the KATAKANA page code table (page_codes.rs). -/
def KATAKANA_LIST : List Char := [
  '｡', '｢', '｣', '､', '･', 'ｦ', 'ｧ', 'ｨ', 'ｩ', 'ｪ', 'ｫ', 'ｬ', 'ｭ', 'ｮ', 'ｯ', 'ｰ',
  'ｱ', 'ｲ', 'ｳ', 'ｴ', 'ｵ', 'ｶ', 'ｷ', 'ｸ', 'ｹ', 'ｺ', 'ｻ', 'ｼ', 'ｽ', 'ｾ', 'ｿ', 'ﾀ',
  'ﾁ', 'ﾂ', 'ﾃ', 'ﾄ', 'ﾅ', 'ﾆ', 'ﾇ', 'ﾈ', 'ﾉ', 'ﾊ', 'ﾋ', 'ﾌ', 'ﾍ', 'ﾎ', 'ﾏ', 'ﾐ',
  'ﾑ', 'ﾒ', 'ﾓ', 'ﾔ', 'ﾕ', 'ﾖ', 'ﾗ', 'ﾘ', 'ﾙ', 'ﾚ', 'ﾛ', 'ﾜ', 'ﾝ', 'ﾞ', 'ﾟ'
]

/-- KATAKANA page code table. -/
def KATAKANA_TABLE : List (Char × Nat) := buildTable 0xA1 KATAKANA_LIST

/-- Literal character list of the PC850 page code table (page_codes.rs). -/
def PC850_LIST : List Char := [
  'Ç', 'ü', 'é', 'â', 'ä', 'à', 'å', 'ç', 'ê', 'ë', 'è', 'ï', 'î', 'ì', 'Ä', 'Å',
  'É', 'æ', 'Æ', 'ô', 'ö', 'ò', 'û', 'ù', 'ÿ', 'Ö', 'Ü', 'ø', '£', 'Ø', '×', 'ƒ',
  'á', 'í', 'ó', 'ú', 'ñ', 'Ñ', 'ª', 'º', '¿', '®', '¬', '½', '¼', '¡', '«', '»',
  '░', '▒', '▓', '│', '┤', 'Á', 'Â', 'À', '©', '╣', '║', '╗', '╝', '¢', '¥', '┐',
  '└', '┴', '┬', '├', '─', '┼', 'ã', 'Ã', '╚', '╔', '╩', '╦', '╠', '═', '╬', '¤',
  'ð', 'Ð', 'Ê', 'Ë', 'È', 'ı', 'Í', 'Î', 'Ï', '┘', '┌', '█', '▄', '¦', 'Ì', '▀',
  'Ó', 'ß', 'Ô', 'Ò', 'õ', 'Õ', 'µ', 'þ', 'Þ', 'Ú', 'Û', 'Ù', 'ý', 'Ý', '¯', '´',
  '-', '±', '‗', '¾', '¶', '§', '÷', '¸', '°', '¨', '·', '¹', '³', '²', '■', '\u00A0'
]

/-- PC850 page code table. -/
def PC850_TABLE : List (Char × Nat) := buildTable 0x80 PC850_LIST

/-- Literal character list of the PC863 page code table (page_codes.rs). -/
def PC863_LIST : List Char := [
  'Ç', 'ü', 'é', 'â', 'Â', 'à', '¶', 'ç', 'ê', 'ë', 'è', 'ï', 'î', '‗', 'À', '§',
  'É', 'È', 'Ê', 'ô', 'Ë', 'Ï', 'û', 'ù', '¤', 'Ô', 'Ü', '¢', '£', 'Ù', 'Û', 'ƒ',
  '¦', '´', 'ó', 'ú', '¨', '¸', '³', '¯', 'Î', '⌐', '¬', '½', '¼', '¾', '«', '»',
  '░', '▒', '▓', '│', '┤', '╡', '╢', '╖', '╕', '╣', '║', '╗', '╝', '╜', '╛', '┐',
  '└', '┴', '┬', '├', '─', '┼', '╞', '╟', '╚', '╔', '╩', '╦', '╠', '═', '╬', '╧',
  '╨', '╤', '╥', '╙', '╘', '╒', '╓', '╫', '╪', '┘', '┌', '█', '▄', '▌', '▐', '▀',
  'α', 'ß', 'Γ', 'π', 'Σ', 'σ', 'µ', 'τ', 'Φ', 'Θ', 'Ω', 'δ', '∞', 'φ', 'ε', '∩',
  '≡', '±', '≥', '≤', '⌠', '⌡', '÷', '≈', '°', '∙', '·', '√', 'ⁿ', '²', '■', '\u00A0'
]

/-- PC863 page code table. -/
def PC863_TABLE : List (Char × Nat) := buildTable 0x80 PC863_LIST

/-- Literal character list of the PC852 page code table (page_codes.rs). -/
def PC852_LIST : List Char := [
  'Ç', 'ü', 'é', 'â', 'ä', 'ů', 'ć', 'ç', 'ł', 'ë', 'Ő', 'ő', 'î', 'Ź', 'Ä', 'Ć',
  'É', 'Ĺ', 'ĺ', 'ô', 'ö', 'Ľ', 'ľ', 'Ś', 'ś', 'Ö', 'Ü', 'Ť', 'ť', 'Ł', '×', 'č',
  'á', 'í', 'ó', 'ú', 'Ą', 'ą', 'Ž', 'ž', 'Ę', 'ę', '¬', 'ź', 'Č', 'ş', '«', '»',
  '░', '▒', '▓', '│', '┤', 'Á', 'Â', 'Ě', 'Ş', '╣', '║', '╗', '╝', 'Ż', 'ż', '┐',
  '└', '┴', '┬', '├', '─', '┼', 'Ă', 'ă', '╚', '╔', '╩', '╦', '╠', '═', '╬', '¤',
  'đ', 'Đ', 'Ď', 'Ë', 'ď', 'Ň', 'Í', 'Î', 'ě', '┘', '┌', '█', '▄', 'Ţ', 'Ů', '▀',
  'Ó', 'ß', 'Ô', 'Ń', 'ń', 'ň', 'Š', 'š', 'Ŕ', 'Ú', 'ŕ', 'Ű', 'ý', 'Ý', 'ţ', '´',
  '\u00AD', '˝', '˛', 'ˇ', '˘', '§', '÷', '¸', '°', '¨', '˙', 'ű', 'Ř', 'ř', '■', '\u00A0'
]

/-- PC852 page code table. -/
def PC852_TABLE : List (Char × Nat) := buildTable 0x80 PC852_LIST

/-- Literal character list of the PC858 page code table (page_codes.rs). -/
def PC858_LIST : List Char := [
  'Ç', 'ü', 'é', 'â', 'ä', 'à', 'å', 'ç', 'ê', 'ë', 'è', 'ï', 'î', 'ì', 'Ä', 'Å',
  'É', 'æ', 'Æ', 'ô', 'ö', 'ò', 'û', 'ù', 'ÿ', 'Ö', 'Ü', 'ø', '£', 'Ø', '×', 'ƒ',
  'á', 'í', 'ó', 'ú', 'ñ', 'Ñ', 'ª', 'º', '®', '⌐', '¬', '½', '¼', '¡', '«', '»',
  '░', '▒', '▓', '│', '┤', 'Á', 'Â', 'À', '©', '╣', '║', '╗', '╝', '¢', '¥', '┐',
  '└', '┴', '┬', '├', '─', '┼', 'ã', 'Ã', '╚', '╔', '╩', '╦', '╠', '═', '╬', '¤',
  'ð', 'Ð', 'Ê', 'Ë', 'È', '€', 'Í', 'Î', 'Ï', '┘', '┌', '█', '▄', '¦', 'Ì', '▀',
  'Ó', 'ß', 'Ô', 'Ô', 'õ', 'Õ', 'µ', 'þ', 'Þ', 'Ú', 'Û', 'Ù', 'ý', 'Ý', '¯', '´',
  '-', '±', '‗', '¾', '¶', '§', '÷', '¸', '°', '¨', '·', '¹', '³', '²', '■', '\u00A0'
]

/-- PC858 page code table. -/
def PC858_TABLE : List (Char × Nat) := buildTable 0x80 PC858_LIST

/-- Literal character list of the PC860 page code table (page_codes.rs). -/
def PC860_LIST : List Char := [
  'Ç', 'ü', 'é', 'â', 'ã', 'à', 'Á', 'ç', 'ê', 'Ê', 'è', 'Í', 'Ô', 'ì', 'Ã', 'Â',
  'É', 'À', 'È', 'ô', 'õ', 'ò', 'Ú', 'ù', 'Ì', 'Õ', 'Ü', '¢', '£', 'Ù', '₧', 'Ó',
  'á', 'í', 'ó', 'ú', 'ñ', 'Ñ', 'ª', 'º', '¿', 'Ò', '¬', '½', '¼', '¡', '«', '»',
  '░', '▒', '▓', '│', '┤', '╡', '╢', '╖', '╕', '╣', '║', '╗', '╝', '╜', '╛', '┐',
  '└', '┴', '┬', '├', '─', '┼', '╞', '╟', '╚', '╔', '╩', '╦', '╠', '═', '╬', '╧',
  '╨', '╤', '╥', '╙', '╘', '╒', '╓', '╫', '╪', '┘', '┌', '█', '▄', '▌', '▐', '▀',
  'α', 'ß', 'Γ', 'π', 'Σ', 'σ', 'µ', 'τ', 'Φ', 'Θ', 'Ω', 'δ', '∞', 'φ', 'ε', '∩',
  '≡', '±', '≥', '≤', '⌠', '⌡', '÷', '≈', '°', '∙', '·', '√', 'ⁿ', '²', '■', '\u00A0'
]

/-- PC860 page code table. -/
def PC860_TABLE : List (Char × Nat) := buildTable 0x80 PC860_LIST

/-- Literal character list of the PC865 page code table (page_codes.rs). -/
def PC865_LIST : List Char := [
  'Ç', 'ü', 'é', 'â', 'ä', 'à', 'å', 'ç', 'ê', 'ë', 'è', 'ï', 'î', 'ì', 'Ä', 'Å',
  'É', 'æ', 'Æ', 'ô', 'ö', 'ò', 'û', 'ù', 'ÿ', 'Ö', 'Ü', 'ø', '£', 'Ø', '₧', 'ƒ',
  'á', 'í', 'ó', 'ú', 'ñ', 'Ñ', 'ª', 'º', '¿', '⌐', '¬', '½', '¼', '¡', '«', '¤',
  '░', '▒', '▓', '│', '┤', '╡', '╢', '╖', '╕', '╣', '║', '╗', '╝', '╜', '╛', '┐',
  '└', '┴', '┬', '├', '─', '┼', '╞', '╟', '╚', '╔', '╩', '╦', '╠', '═', '╬', '╧',
  '╨', '╤', '╥', '╙', '╘', '╒', '╓', '╫', '╪', '┘', '┌', '█', '▄', '▌', '▐', '▀',
  'α', 'ß', 'Γ', 'π', 'Σ', 'σ', 'µ', 'τ', 'Φ', 'Θ', 'Ω', 'δ', '∞', 'φ', 'ε', '∩',
  '≡', '±', '≥', '≤', '⌠', '⌡', '÷', '≈', '°', '∙', '·', '√', 'ⁿ', '²', '■', '\u00A0'
]

/-- PC865 page code table. -/
def PC865_TABLE : List (Char × Nat) := buildTable 0x80 PC865_LIST

/-- Literal character list of the PC851 page code table (page_codes.rs). -/
def PC851_LIST : List Char := [
  'Ç', 'ü', 'é', 'â', 'ä', 'à', 'Ά', 'ç', 'ê', 'ë', 'è', 'ï', 'î', 'Έ', 'Ä', 'Ή',
  'Ί', '\u0000', 'Ό', 'ô', 'ö', 'Ύ', 'û', 'ù', 'Ώ', 'Ö', 'Ü', 'ά', '£', 'έ', 'ή', 'ί',
  'ϊ', 'ΐ', 'ό', 'ύ', 'Α', 'Β', 'Γ', 'Δ', 'Ε', 'Ζ', 'Η', '½', 'Θ', 'Ι', '«', '»',
  '░', '▒', '▓', '│', '┤', 'Κ', 'Λ', 'Μ', 'Ν', '╣', '║', '╗', '╝', 'Ξ', 'Ο', '┐',
  '└', '┴', '┬', '├', '─', '┼', 'Π', 'Ρ', '╚', '╔', '╩', '╦', '╠', '═', '╬', 'Σ',
  'Τ', 'Υ', 'Φ', 'Χ', 'Ψ', 'Ω', 'α', 'β', 'γ', '┘', '┌', '█', '▄', 'δ', 'ε', '▀',
  'ζ', 'η', 'θ', 'ι', 'κ', 'λ', 'μ', 'ν', 'ξ', 'ο', 'π', 'ρ', 'σ', 'ς', 'τ', '´',
  '-', '±', 'υ', 'φ', 'χ', '§', 'ψ', '¸', '°', '¨', 'ω', 'ϋ', 'ΰ', 'ώ', '■', '\u00A0'
]

/-- PC851 page code table (with '\0' placeholder slots filtered out). -/
def PC851_TABLE : List (Char × Nat) := buildTableNoHoles 0x80 PC851_LIST

/-- Literal character list of the PC853 page code table (page_codes.rs). -/
def PC853_LIST : List Char := [
  'Ç', 'ü', 'é', 'â', 'ä', 'à', 'ĉ', 'ç', 'ê', 'ë', 'è', 'ï', 'î', 'ì', 'Ä', 'Ĉ',
  'É', 'ċ', 'Ċ', 'ô', 'ö', 'ò', 'û', 'ù', 'İ', 'Ö', 'Ü', 'ĝ', '£', 'Ĝ', '×', 'ĵ',
  'á', 'í', 'ó', 'ú', 'ñ', 'Ñ', 'Ğ', 'ğ', 'Ĥ', 'ĥ', '\u0000', '½', 'Ĵ', 'ş', '«', '»',
  '░', '▒', '▓', '│', '┤', 'Á', 'Â', 'À', 'Ş', '╣', '║', '╗', '╝', 'Ż', 'ż', '┐',
  '└', '┴', '┬', '├', '─', '┼', 'Ŝ', 'ŝ', '╚', '╔', '╩', '╦', '╠', '═', '╬', '¤',
  '\u0000', '\u0000', 'Ê', 'Ë', 'È', 'ı', 'Í', 'Î', 'Ï', '┘', '┌', '█', '▄', '\u0000', 'Ì', '▀',
  'Ó', 'ß', 'Ô', 'Ò', 'Ġ', 'ġ', 'µ', 'Ħ', 'ħ', 'Ú', 'Û', 'Ù', 'Ŭ', 'ŭ', '·', '´',
  '-', '\u0000', 'ℓ', 'ŉ', '˘', '§', '÷', '¸', '°', '¨', '˙', '\u0000', '³', '²', '■', '\u00A0'
]

/-- PC853 page code table (with '\0' placeholder slots filtered out). -/
def PC853_TABLE : List (Char × Nat) := buildTableNoHoles 0x80 PC853_LIST

/-- Literal character list of the PC857 page code table (page_codes.rs). -/
def PC857_LIST : List Char := [
  'Ç', 'ü', 'é', 'â', 'ä', 'à', 'å', 'ç', 'ê', 'ë', 'è', 'ï', 'î', 'ı', 'Ä', 'Å',
  'É', 'æ', 'Æ', 'ô', 'ö', 'ò', 'û', 'ù', 'İ', 'Ö', 'Ü', 'ø', '£', 'Ø', 'Ş', 'ş',
  'á', 'í', 'ó', 'ú', 'ñ', 'Ñ', 'Ğ', 'ğ', '¿', '®', '¬', '½', '¼', '¡', '«', '»',
  '░', '▒', '▓', '│', '┤', 'Á', 'Â', 'À', '©', '╣', '║', '╗', '╝', '¢', '¥', '┐',
  '└', '┴', '┬', '├', '─', '┼', 'ã', 'Ã', '╚', '╔', '╩', '╦', '╠', '═', '╬', '¤',
  'º', 'ª', 'Ê', 'Ë', 'È', '€', 'Í', 'Î', 'Ï', '┘', '┌', '█', '▄', '¦', 'Ì', '▀',
  'Ó', 'ß', 'Ô', 'Ò', 'õ', 'Õ', 'µ', '.', '×', 'Ú', 'Û', 'Ù', 'ì', 'ÿ', '¯', '´',
  '-', '±', '\u0000', '¾', '¶', '§', '÷', '¸', '°', '¨', '·', '¹', '³', '²', '■', '\u00A0'
]

/-- PC857 page code table (with '\0' placeholder slots filtered out). -/
def PC857_TABLE : List (Char × Nat) := buildTableNoHoles 0x80 PC857_LIST

/-- Literal character list of the PC737 page code table (page_codes.rs). -/
def PC737_LIST : List Char := [
  'Α', 'Β', 'Γ', 'Δ', 'Ε', 'Ζ', 'Η', 'Θ', 'Ι', 'Κ', 'Λ', 'Μ', 'Ν', 'Ξ', 'Ο', 'Π',
  'Ρ', 'Σ', 'Τ', 'Υ', 'Φ', 'Χ', 'Ψ', 'Ω', 'α', 'β', 'γ', 'δ', 'ε', 'ζ', 'η', 'θ',
  'ι', 'κ', 'λ', 'μ', 'ν', 'ξ', 'ο', 'π', 'ρ', 'σ', 'ς', 'τ', 'υ', 'φ', 'χ', 'ψ',
  '░', '▒', '▓', '│', '┤', '╡', '╢', '╖', '╕', '╣', '║', '╗', '╝', '╜', '╛', '┐',
  '└', '┴', '┬', '├', '─', '┼', '╞', '╟', '╚', '╔', '╩', '╦', '╠', '═', '╬', '╧',
  '╨', '╤', '╥', '╙', '╘', '╒', '╓', '╫', '╪', '┘', '┌', '█', '▄', '▌', '▐', '▀',
  'ω', 'ά', 'έ', 'ή', 'ϊ', 'ί', 'ό', 'ύ', 'ϋ', 'ώ', 'Ά', 'Έ', 'Ή', 'Ί', 'Ό', 'Ύ',
  'Ώ', '±', '≥', '≤', 'Ϊ', 'Ϋ', '÷', '≈', '°', '∙', '·', '√', 'ⁿ', '²', '■', '\u00A0'
]

/-- PC737 page code table. -/
def PC737_TABLE : List (Char × Nat) := buildTable 0x80 PC737_LIST

/-- Literal character list of the ISO8859_2 page code table (page_codes.rs). -/
def ISO8859_2_LIST : List Char := [
  '\u00A0', 'Ą', '˘', 'Ł', '¤', 'Ľ', 'Ś', '§', '¨', 'Š', 'Ş', 'Ť', 'Ź', '\u00AD', 'Ž', 'Ż',
  '°', 'ą', '˛', 'ł', '´', 'ľ', 'ś', 'ˇ', '¸', 'š', 'ş', 'ť', 'ź', '˝', 'ž', 'ż',
  'Ŕ', 'Á', 'Â', 'Ă', 'Ä', 'Ĺ', 'Ć', 'Ç', 'Č', 'É', 'Ę', 'Ë', 'Ě', 'Í', 'Î', 'Ď',
  'Đ', 'Ń', 'Ň', 'Ó', 'Ô', 'Ő', 'Ö', '×', 'Ř', 'Ů', 'Ú', 'Ű', 'Ü', 'Ý', 'Ţ', 'ß',
  'ŕ', 'á', 'â', 'ă', 'ä', 'ĺ', 'ć', 'ç', 'č', 'é', 'ę', 'ë', 'ě', 'í', 'î', 'ď',
  'đ', 'ń', 'ň', 'ó', 'ô', 'ő', 'ö', '÷', 'ř', 'ů', 'ú', 'ű', 'ü', 'ý', 'ţ', '˙'
]

/-- ISO8859_2 page code table. -/
def ISO8859_2_TABLE : List (Char × Nat) := buildTable 0xA0 ISO8859_2_LIST

/-- Literal character list of the ISO8859_7 page code table (page_codes.rs). -/
def ISO8859_7_LIST : List Char := [
  '\u00A0', '‘', '’', '£', '€', '₯', '¦', '§', '¨', '©', 'ͺ', '«', '¬', '\u00AD', '\u0000', '―',
  '°', '±', '²', '³', '΄', '΅', 'Ά', '·', 'Έ', 'Ή', 'Ί', '»', 'Ό', '½', 'Ύ', 'Ώ',
  'ΐ', 'Α', 'Β', 'Γ', 'Δ', 'Ε', 'Ζ', 'Η', 'Θ', 'Ι', 'Κ', 'Λ', 'Μ', 'Ν', 'Ξ', 'Ο',
  'Π', 'Ρ', '\u0000', 'Σ', 'Τ', 'Υ', 'Φ', 'Χ', 'Ψ', 'Ω', 'Ϊ', 'Ϋ', 'ά', 'έ', 'ή', 'ί',
  'ΰ', 'α', 'β', 'γ', 'δ', 'ε', 'ζ', 'η', 'θ', 'ι', 'κ', 'λ', 'μ', 'ν', 'ξ', 'ο',
  'π', 'ρ', 'ς', 'σ', 'τ', 'υ', 'φ', 'χ', 'ψ', 'ω', 'ϊ', 'ϋ', 'ό', 'ύ', 'ώ'
]

/-- ISO8859_7 page code table (with '\0' placeholder slots filtered out). -/
def ISO8859_7_TABLE : List (Char × Nat) := buildTableNoHoles 0xA0 ISO8859_7_LIST

/-- Literal character list of the ISO8859_15 page code table (page_codes.rs). -/
def ISO8859_15_LIST : List Char := [
  '\u00A0', '¡', '¢', '£', '€', '¥', 'Š', '§', 'š', '©', 'ª', '«', '¬', '\u00AD', '®', '¯',
  '°', '±', '²', '³', 'Ž', 'µ', '¶', '·', 'ž', '¹', 'º', '»', 'Œ', 'œ', 'Ÿ', '¿',
  'À', 'Á', 'Â', 'Ã', 'Ä', 'Å', 'Æ', 'Ç', 'È', 'É', 'Ê', 'Ë', 'Ì', 'Í', 'Î', 'Ï',
  'Ð', 'Ñ', 'Ò', 'Ó', 'Ô', 'Õ', 'Ö', '×', 'Ø', 'Ù', 'Ú', 'Û', 'Ü', 'Ý', 'Þ', 'ß',
  'à', 'á', 'â', 'ã', 'ä', 'å', 'æ', 'ç', 'è', 'é', 'ê', 'ë', 'ì', 'í', 'î', 'ï',
  'ð', 'ñ', 'ò', 'ó', 'ô', 'õ', 'ö', '÷', 'ø', 'ù', 'ú', 'û', 'ü', 'ý', 'þ', 'ÿ'
]

/-- ISO8859_15 page code table. -/
def ISO8859_15_TABLE : List (Char × Nat) := buildTable 0xA0 ISO8859_15_LIST

/-- Literal character list of the WPC1252 page code table (page_codes.rs). -/
def WPC1252_LIST : List Char := [
  '€', '\u0000', '‚', 'ƒ', '„', '…', '†', '‡', 'ˆ', '‰', 'Š', '‹', 'Œ', '\u0000', 'Ž', '\u0000',
  '\u0000', '‘', '’', '“', '”', '•', '–', '—', '˜', '™', 'š', '›', 'œ', '\u0000', 'ž', 'Ÿ',
  '\u00A0', '¡', '¢', '£', '¤', '¥', '¦', '§', '¨', '©', 'ª', '«', '¬', '\u00AD', '®', '¯',
  '°', '±', '²', '³', '´', 'µ', '¶', '·', '¸', '¹', 'º', '»', '¼', '½', '¾', '¿',
  'À', 'Á', 'Â', 'Ã', 'Ä', 'Å', 'Æ', 'Ç', 'È', 'É', 'Ê', 'Ë', 'Ì', 'Í', 'Î', 'Ï',
  'Ð', 'Ñ', 'Ò', 'Ó', 'Ô', 'Õ', 'Ö', '×', 'Ø', 'Ù', 'Ú', 'Û', 'Ü', 'Ý', 'Þ', 'ß',
  'à', 'á', 'â', 'ã', 'ä', 'å', 'æ', 'ç', 'è', 'é', 'ê', 'ë', 'ì', 'í', 'î', 'ï',
  'ð', 'ñ', 'ò', 'ó', 'ô', 'õ', 'ö', '÷', 'ø', 'ù', 'ú', 'û', 'ü', 'ý', 'þ', 'ÿ'
]

/-- WPC1252 page code table (with '\0' placeholder slots filtered out). -/
def WPC1252_TABLE : List (Char × Nat) := buildTableNoHoles 0x80 WPC1252_LIST

/-- Literal character list of the PC866 page code table (page_codes.rs). -/
def PC866_LIST : List Char := [
  'А', 'Б', 'В', 'Г', 'Д', 'Е', 'Ж', 'З', 'И', 'Й', 'К', 'Л', 'М', 'Н', 'О', 'П',
  'Р', 'С', 'Т', 'У', 'Ф', 'Х', 'Ц', 'Ч', 'Ш', 'Щ', 'Ъ', 'Ы', 'Ь', 'Э', 'Ю', 'Я',
  'а', 'б', 'в', 'г', 'д', 'е', 'ж', 'з', 'и', 'й', 'к', 'л', 'м', 'н', 'о', 'п',
  '░', '▒', '▓', '│', '┤', '╡', '╢', '╖', '╕', '╣', '║', '╗', '╝', '╜', '╛', '┐',
  '└', '┴', '┬', '├', '─', '┼', '╞', '╟', '╚', '╔', '╩', '╦', '╠', '═', '╬', '╧',
  '╨', '╤', '╥', '╙', '╘', '╒', '╓', '╫', '╪', '┘', '┌', '█', '▄', '▌', '▐', '▀',
  'р', 'с', 'т', 'у', 'ф', 'х', 'ц', 'ч', 'ш', 'щ', 'ъ', 'ы', 'ь', 'э', 'ю', 'я',
  'Ё', 'ё', 'Є', 'є', 'Ї', 'ї', 'Ў', 'ў', '°', '∙', '·', '√', '№', '¤', '■', '\u00A0'
]

/-- PC866 page code table. -/
def PC866_TABLE : List (Char × Nat) := buildTable 0x80 PC866_LIST

/-- Literal character list of the WPC775 page code table (page_codes.rs). -/
def WPC775_LIST : List Char := [
  'Ć', 'ü', 'é', 'ā', 'ä', 'ģ', 'å', 'ć', 'ł', 'ē', 'Ŗ', 'ŗ', 'ī', 'Ź', 'Ä', 'Å',
  'É', 'æ', 'Æ', 'ō', 'ö', 'Ģ', '¢', 'Ś', 'ś', 'Ö', 'Ü', 'ø', '£', 'Ø', '×', '¤',
  'Ā', 'Ī', 'ó', 'Ż', 'ż', 'ź', '”', '¦', '©', '®', '¬', '½', '¼', 'Ł', '«', '»',
  '░', '▒', '▓', '│', '┤', 'Ą', 'Č', 'Ę', 'Ė', '╣', '║', '╗', '╝', 'Į', 'Š', '┐',
  '└', '┴', '┬', '├', '─', '┼', 'Ų', 'Ū', '╚', '╔', '╩', '╦', '╠', '═', '╬', 'Ž',
  'ą', 'č', 'ę', 'ė', 'į', 'š', 'ų', 'ū', 'ž', '┘', '┌', '█', '▄', '▌', '▐', '▀',
  'Ó', 'ß', 'Ō', 'Ń', 'õ', 'Õ', 'µ', 'ń', 'Ķ', 'ķ', 'Ļ', 'ļ', 'ņ', 'Ē', 'Ņ', '’',
  '-', '±', '“', '¾', '¶', '§', '÷', '„', '°', '∙', '·', '¹', '³', '²', '■', '\u00A0'
]

/-- WPC775 page code table. -/
def WPC775_TABLE : List (Char × Nat) := buildTable 0x80 WPC775_LIST

/-- Literal character list of the PC855 page code table (page_codes.rs). -/
def PC855_LIST : List Char := [
  'ђ', 'Ђ', 'ѓ', 'Ѓ', 'ё', 'Ё', 'є', 'Є', 'ѕ', 'Ѕ', 'і', 'І', 'ї', 'Ї', 'ј', 'Ј',
  'љ', 'Љ', 'њ', 'Њ', 'ћ', 'Ћ', 'ќ', 'Ќ', 'ў', 'Ў', 'џ', 'Џ', 'ю', 'Ю', 'ъ', 'Ъ',
  'а', 'А', 'б', 'Б', 'ц', 'Ц', 'д', 'Д', 'е', 'Е', 'ф', 'Ф', 'г', 'Г', '«', '»',
  '░', '▒', '▓', '│', '┤', 'х', 'Х', 'и', 'И', '╣', '║', '╗', '╝', 'й', 'Й', '┐',
  '└', '┴', '┬', '├', '─', '┼', 'к', 'К', '╚', '╔', '╩', '╦', '╠', '═', '╬', '¤',
  'л', 'Л', 'м', 'М', 'н', 'Н', 'о', 'О', 'п', '┘', '┌', '█', '▄', 'П', 'я', '▀',
  'Я', 'р', 'Р', 'с', 'С', 'т', 'Т', 'у', 'У', 'ж', 'Ж', 'в', 'В', 'ь', 'Ь', '№',
  '-', 'ы', 'Ы', 'з', 'З', 'ш', 'Ш', 'э', 'Э', 'щ', 'Щ', 'ч', 'Ч', '§', '■', '\u00A0'
]

/-- PC855 page code table. -/
def PC855_TABLE : List (Char × Nat) := buildTable 0x80 PC855_LIST

/-- Literal character list of the PC861 page code table (page_codes.rs). -/
def PC861_LIST : List Char := [
  'Ç', 'ü', 'é', 'â', 'ä', 'à', 'å', 'ç', 'ê', 'ë', 'è', 'Ð', 'ð', 'Þ', 'Ä', 'Å',
  'É', 'æ', 'Æ', 'ô', 'ö', 'þ', 'û', 'Ý', 'ý', 'Ö', 'Ü', 'ø', '£', 'Ø', '₧', 'ƒ',
  'á', 'í', 'ó', 'ú', 'Á', 'Í', 'Ó', 'Ú', '¿', '⌐', '¬', '½', '¼', '¡', '«', '»',
  '░', '▒', '▓', '│', '┤', '╡', '╢', '╖', '╕', '╣', '║', '╗', '╝', '╜', '╛', '┐',
  '└', '┴', '┬', '├', '─', '┼', '╞', '╟', '╚', '╔', '╩', '╦', '╠', '═', '╬', '╧',
  '╨', '╤', '╥', '╙', '╘', '╒', '╓', '╫', '╪', '┘', '┌', '█', '▄', '▌', '▐', '▀',
  'α', 'ß', 'Γ', 'π', 'Σ', 'σ', 'µ', 'τ', 'Φ', 'Θ', 'Ω', 'δ', '∞', 'φ', 'ε', '∩',
  '≡', '±', '≥', '≤', '⌠', '⌡', '÷', '≈', '°', '∙', '·', '√', 'ⁿ', '²', '■', '\u00A0'
]

/-- PC861 page code table. -/
def PC861_TABLE : List (Char × Nat) := buildTable 0x80 PC861_LIST

/-- Literal character list of the PC862 page code table (page_codes.rs). -/
def PC862_LIST : List Char := [
  'א', 'ב', 'ג', 'ד', 'ה', 'ו', 'ז', 'ח', 'ט', 'י', 'ך', 'כ', 'ל', 'ם', 'מ', 'ן',
  'נ', 'ס', 'ע', 'ף', 'פ', 'ץ', 'צ', 'ק', 'ר', 'ש', 'ת', '¢', '£', '¥', '₧', 'ƒ',
  'á', 'í', 'ó', 'ú', 'ñ', 'Ñ', 'ª', 'º', '¿', '⌐', '¬', '½', '¼', '¡', '«', '»',
  '░', '▒', '▓', '│', '┤', '╡', '╢', '╖', '╕', '╣', '║', '╗', '╝', '╜', '╛', '┐',
  '└', '┴', '┬', '├', '─', '┼', '╞', '╟', '╚', '╔', '╩', '╦', '╠', '═', '╬', '╧',
  '╨', '╤', '╥', '╙', '╘', '╒', '╓', '╫', '╪', '┘', '┌', '█', '▄', '▌', '▐', '▀',
  'α', 'ß', 'Γ', 'π', 'Σ', 'σ', 'µ', 'τ', 'Φ', 'Θ', 'Ω', 'δ', '∞', 'φ', 'ε', '∩',
  '≡', '±', '≥', '≤', '⌠', '⌡', '÷', '≈', '°', '∙', '·', '√', 'ⁿ', '²', '■', '\u00A0'
]

/-- PC862 page code table. -/
def PC862_TABLE : List (Char × Nat) := buildTable 0x80 PC862_LIST

/-- Literal character list of the PC869 page code table (page_codes.rs). -/
def PC869_LIST : List Char := [
  'Ά', '€', '·', '¬', '¦', '‘', '’', 'Έ', '―', 'Ή', 'Ί', 'Ϊ', 'Ό', '\u0000', '\u0000', 'Ύ',
  'Ϋ', '©', 'Ώ', '²', '³', 'ά', '£', 'έ', 'ή', 'ί', 'ϊ', 'ΐ', 'ό', 'ύ', 'Α', 'Β',
  'Γ', 'Δ', 'Ε', 'Ζ', 'Η', '½', 'Θ', 'Ι', '«', '»', '░', '▒', '▓', '│', '┤', 'Κ',
  'Λ', 'Μ', 'Ν', '╣', '║', '╗', '╝', 'Ξ', 'Ο', '┐', '└', '┴', '┬', '├', '─', '┼',
  'Π', 'Ρ', '╚', '╔', '╩', '╦', '╠', '═', '╬', 'Σ', 'Τ', 'Υ', 'Φ', 'Χ', 'Ψ', 'Ω',
  'α', 'β', 'γ', '┘', '┌', '█', '▄', 'δ', 'ε', '▀', 'ζ', 'η', 'θ', 'ι', 'κ', 'λ',
  'μ', 'ν', 'ξ', 'ο', 'π', 'ρ', 'σ', 'ς', 'τ', '΄', '-', '±', 'υ', 'φ', 'χ', '§',
  'ψ', '΅', '°', '¨', 'ω', 'ϋ', 'ΰ', 'ώ', '■', '\u00A0'
]

/-- PC869 page code table (with '\0' placeholder slots filtered out). -/
def PC869_TABLE : List (Char × Nat) := buildTableNoHoles 0x86 PC869_LIST

/-- Literal character list of the PC1118 page code table (page_codes.rs). -/
def PC1118_LIST : List Char := [
  'Ç', 'ü', 'é', 'â', 'ä', 'à', 'å', 'ç', 'ê', 'ë', 'è', 'ï', 'î', 'ì', 'Ä', 'Å',
  'É', 'æ', 'Æ', 'ô', 'ö', 'ò', 'û', 'ù', 'ÿ', 'Ö', 'Ü', '¢', '£', '¥', '₧', 'ƒ',
  'á', 'í', 'ó', 'ú', 'ñ', 'Ñ', 'ª', 'º', '¿', '⌐', '¬', '½', '¼', '¡', '«', '»',
  '░', '▒', '▓', '│', '┤', 'Ą', 'Č', 'Ę', 'Ė', '╣', '║', '╗', '╝', 'Į', 'Š', '┐',
  '└', '┴', '┬', '├', '─', '┼', 'Ų', 'Ū', '╚', '╔', '╩', '╦', '╠', '═', '╬', 'Ž',
  'ą', 'č', 'ę', 'ė', 'į', 'š', 'ų', 'ū', 'ž', '┘', '┌', '█', '▄', '▌', '▐', '▀',
  'α', 'ß', 'Γ', 'π', 'Σ', 'σ', 'µ', 'τ', 'Φ', 'Θ', 'Ω', 'δ', '∞', 'φ', 'ε', '∩',
  '≡', '±', '≥', '≤', '„', '“', '÷', '≈', '°', '∙', '·', '√', 'ⁿ', '²', '■', '\u00A0'
]

/-- PC1118 page code table. -/
def PC1118_TABLE : List (Char × Nat) := buildTable 0x80 PC1118_LIST

/-- Literal character list of the PC1119 page code table (page_codes.rs). -/
def PC1119_LIST : List Char := [
  'А', 'Б', 'В', 'Г', 'Д', 'Е', 'Ж', 'З', 'И', 'Й', 'К', 'Л', 'М', 'Н', 'О', 'П',
  'Р', 'С', 'Т', 'У', 'Ф', 'Х', 'Ц', 'Ч', 'Ш', 'Щ', 'Ъ', 'Ы', 'Ь', 'Э', 'Ю', 'Я',
  'а', 'б', 'в', 'г', 'д', 'е', 'ж', 'з', 'и', 'й', 'к', 'л', 'м', 'н', 'о', 'п',
  '░', '▒', '▓', '│', '┤', 'Ą', 'Č', 'Ę', 'Ė', '╣', '║', '╗', '╝', 'Į', 'Š', '┐',
  '└', '┴', '┬', '├', '─', '┼', 'Ų', 'Ū', '╚', '╔', '╩', '╦', '╠', '═', '╬', 'Ž',
  'ą', 'č', 'ę', 'ė', 'į', 'š', 'ų', 'ū', 'ž', '┘', '┌', '█', '▄', '▌', '▐', '▀',
  'р', 'с', 'т', 'у', 'ф', 'х', 'ц', 'ч', 'ш', 'щ', 'ъ', 'ы', 'ь', 'э', 'ю', 'я',
  'Ё', 'ё', '≥', '≤', '„', '“', '÷', '≈', '°', '∙', '·', '√', 'ⁿ', '²', '■', '\u00A0'
]

/-- PC1119 page code table. -/
def PC1119_TABLE : List (Char × Nat) := buildTable 0x80 PC1119_LIST

/-- Literal character list of the PC1125 page code table (page_codes.rs). -/
def PC1125_LIST : List Char := [
  'А', 'Б', 'В', 'Г', 'Д', 'Е', 'Ж', 'З', 'И', 'Й', 'К', 'Л', 'М', 'Н', 'О', 'П',
  'Р', 'С', 'Т', 'У', 'Ф', 'Х', 'Ц', 'Ч', 'Ш', 'Щ', 'Ъ', 'Ы', 'Ь', 'Э', 'Ю', 'Я',
  'а', 'б', 'в', 'г', 'д', 'е', 'ж', 'з', 'и', 'й', 'к', 'л', 'м', 'н', 'о', 'п',
  '░', '▒', '▓', '│', '┤', '╡', '╢', '╖', '╕', '╣', '║', '╗', '╝', '╜', '╛', '┐',
  '└', '┴', '┬', '├', '─', '┼', '╞', '╟', '╚', '╔', '╩', '╦', '╠', '═', '╬', '╧',
  '╨', '╤', '╥', '╙', '╘', '╒', '╓', '╫', '╪', '┘', '┌', '█', '▄', '▌', '▐', '▀',
  'р', 'с', 'т', 'у', 'ф', 'х', 'ц', 'ч', 'ш', 'щ', 'ъ', 'ы', 'ь', 'э', 'ю', 'я',
  'Ё', 'ё', 'Ґ', 'ґ', 'Є', 'є', 'І', 'і', 'Ї', 'ї', '÷', '±', '№', '¤', '■', '\u00A0'
]

/-- PC1125 page code table. -/
def PC1125_TABLE : List (Char × Nat) := buildTable 0x80 PC1125_LIST

/-- Literal character list of the WPC1250 page code table (page_codes.rs). -/
def WPC1250_LIST : List Char := [
  '€', '\u0000', '‚', '\u0000', '„', '…', '†', '‡', '\u0000', '‰', 'Š', '‹', 'Ś', 'Ť', 'Ž', 'Ź',
  '\u0000', '‘', '’', '“', '”', '•', '–', '—', '\u0000', '™', 'š', '›', 'ś', 'ť', 'ž', 'ź',
  '\u00A0', 'ˇ', '˘', 'Ł', '¤', 'Ą', '¦', '§', '¨', '©', 'Ş', '«', '¬', '-', '®', 'Ż',
  '°', '±', '˛', 'ł', '´', 'µ', '¶', '·', '¸', 'ą', 'ş', '»', 'Ľ', '˝', 'ľ', 'ż',
  'Ŕ', 'Á', 'Â', 'Ă', 'Ä', 'Ĺ', 'Ć', 'Ç', 'Č', 'É', 'Ę', 'Ë', 'Ě', 'Í', 'Î', 'Ď',
  'Đ', 'Ń', 'Ň', 'Ó', 'Ô', 'Ő', 'Ö', '×', 'Ř', 'Ů', 'Ú', 'Ű', 'Ü', 'Ý', 'Ţ', 'ß',
  'ŕ', 'á', 'â', 'ă', 'ä', 'ĺ', 'ć', 'ç', 'č', 'é', 'ę', 'ë', 'ě', 'í', 'î', 'ď',
  'đ', 'ń', 'ň', 'ó', 'ô', 'ő', 'ö', '÷', 'ř', 'ů', 'ú', 'ű', 'ü', 'ý', 'ţ', '˙'
]

/-- WPC1250 page code table (with '\0' placeholder slots filtered out). -/
def WPC1250_TABLE : List (Char × Nat) := buildTableNoHoles 0x80 WPC1250_LIST

/-- Literal character list of the WPC1251 page code table (page_codes.rs). -/
def WPC1251_LIST : List Char := [
  'Ђ', 'Ѓ', '‚', 'ѓ', '„', '…', '†', '‡', '€', '‰', 'Љ', '‹', 'Њ', 'Ќ', 'Ћ', 'Џ',
  'ђ', '‘', '’', '“', '”', '•', '–', '—', '\u0000', '™', 'љ', '›', 'њ', 'ќ', 'ћ', 'џ',
  '\u00A0', 'Ў', 'ў', 'Ј', '¤', 'Ґ', '¦', '§', 'Ё', '©', 'Є', '«', '¬', '-', '®', 'Ї',
  '°', '±', 'І', 'і', 'ґ', 'µ', '¶', '·', 'ё', '№', 'є', '»', 'ј', 'Ѕ', 'ѕ', 'ї',
  'А', 'Б', 'В', 'Г', 'Д', 'Е', 'Ж', 'З', 'И', 'Й', 'К', 'Л', 'М', 'Н', 'О', 'П',
  'Р', 'С', 'Т', 'У', 'Ф', 'Х', 'Ц', 'Ч', 'Ш', 'Щ', 'Ъ', 'Ы', 'Ь', 'Э', 'Ю', 'Я',
  'а', 'б', 'в', 'г', 'д', 'е', 'ж', 'з', 'и', 'й', 'к', 'л', 'м', 'н', 'о', 'п',
  'р', 'с', 'т', 'у', 'ф', 'х', 'ц', 'ч', 'ш', 'щ', 'ъ', 'ы', 'ь', 'э', 'ю', 'я'
]

/-- WPC1251 page code table (with '\0' placeholder slots filtered out). -/
def WPC1251_TABLE : List (Char × Nat) := buildTableNoHoles 0x80 WPC1251_LIST

/-- Literal character list of the WPC1253 page code table (page_codes.rs). -/
def WPC1253_LIST : List Char := [
  '€', '\u0000', '‚', 'ƒ', '„', '…', '†', '‡', '\u0000', '‰', '\u0000', '‹', '\u0000', '\u0000', '\u0000', '\u0000',
  '\u0000', '‘', '’', '“', '”', '•', '–', '—', '\u0000', '™', '\u0000', '›', '\u0000', '\u0000', '\u0000', '\u0000',
  '\u00A0', '΅', 'Ά', '£', '¤', '¥', '¦', '§', '¨', '©', '\u0000', '«', '¬', '-', '®', '―',
  '°', '±', '²', '³', '΄', 'µ', '¶', '·', 'Έ', 'Ή', 'Ί', '»', 'Ό', '½', 'Ύ', 'Ώ',
  'ΐ', 'Α', 'Β', 'Γ', 'Δ', 'Ε', 'Ζ', 'Η', 'Θ', 'Ι', 'Κ', 'Λ', 'Μ', 'Ν', 'Ξ', 'Ο',
  'Π', 'Ρ', '\u0000', 'Σ', 'Τ', 'Υ', 'Φ', 'Χ', 'Ψ', 'Ω', 'Ϊ', 'Ϋ', 'ά', 'έ', 'ή', 'ί',
  'ΰ', 'α', 'β', 'γ', 'δ', 'ε', 'ζ', 'η', 'θ', 'ι', 'κ', 'λ', 'μ', 'ν', 'ξ', 'ο',
  'π', 'ρ', 'ς', 'σ', 'τ', 'υ', 'φ', 'χ', 'ψ', 'ω', 'ϊ', 'ϋ', 'ό', 'ύ', 'ώ', '\u0000'
]

/-- WPC1253 page code table (with '\0' placeholder slots filtered out). -/
def WPC1253_TABLE : List (Char × Nat) := buildTableNoHoles 0x80 WPC1253_LIST

/-- Literal character list of the WPC1254 page code table (page_codes.rs). -/
def WPC1254_LIST : List Char := [
  '€', '\u0000', '‚', 'ƒ', '„', '…', '†', '‡', 'ˆ', '‰', 'Š', '‹', 'Œ', '\u0000', '\u0000', '\u0000',
  '\u0000', '‘', '’', '“', '”', '•', '–', '—', '˜', '™', 'š', '›', 'œ', '\u0000', '\u0000', 'Ÿ',
  '\u00A0', '¡', '¢', '£', '¤', '¥', '¦', '§', '¨', '©', 'ª', '«', '¬', '-', '®', '¯',
  '°', '±', '²', '³', '´', 'µ', '¶', '·', '¸', '¹', 'º', '»', '¼', '½', '¾', '¿',
  'À', 'Á', 'Â', 'Ã', 'Ä', 'Å', 'Æ', 'Ç', 'È', 'É', 'Ê', 'Ë', 'Ì', 'Í', 'Î', 'Ï',
  'Ğ', 'Ñ', 'Ò', 'Ó', 'Ô', 'Õ', 'Ö', '×', 'Ø', 'Ù', 'Ú', 'Û', 'Ü', 'İ', 'Ş', 'ß',
  'à', 'á', 'â', 'ã', 'ä', 'å', 'æ', 'ç', 'è', 'é', 'ê', 'ë', 'ì', 'í', 'î', 'ï',
  'ğ', 'ñ', 'ò', 'ó', 'ô', 'õ', 'ö', '÷', 'ø', 'ù', 'ú', 'û', 'ü', 'ı', 'ş', 'ÿ'
]

/-- WPC1254 page code table (with '\0' placeholder slots filtered out). -/
def WPC1254_TABLE : List (Char × Nat) := buildTableNoHoles 0x80 WPC1254_LIST

/-- Literal character list of the WPC1257 page code table (page_codes.rs). -/
def WPC1257_LIST : List Char := [
  '€', '\u0000', '‚', '\u0000', '„', '…', '†', '‡', '\u0000', '‰', '\u0000', '‹', '\u0000', '¨', 'ˇ', '¸',
  '\u0000', '‘', '’', '“', '”', '•', '–', '—', '\u0000', '™', '\u0000', '›', '\u0000', '¯', '˛', '\u0000',
  '\u00A0', '\u0000', '¢', '£', '¤', '\u0000', '¦', '§', 'Ø', '©', 'Ŗ', '«', '¬', '-', '®', 'Æ',
  '°', '±', '²', '³', '´', 'µ', '¶', '·', 'ø', '¹', 'ŗ', '»', '¼', '½', '¾', 'æ',
  'Ą', 'Į', 'Ā', 'Ć', 'Ä', 'Å', 'Ę', 'Ē', 'Č', 'É', 'Ź', 'Ė', 'Ģ', 'Ķ', 'Ī', 'Ļ',
  'Š', 'Ń', 'Ņ', 'Ó', 'Ō', 'Õ', 'Ö', '×', 'Ų', 'Ł', 'Ś', 'Ū', 'Ü', 'Ż', 'Ž', 'ß',
  'ą', 'į', 'ā', 'ć', 'ä', 'å', 'ę', 'ē', 'č', 'é', 'ź', 'ė', 'ģ', 'ķ', 'ī', 'ļ',
  'š', 'ń', 'ņ', 'ó', 'ō', 'õ', 'ö', '÷', 'ų', 'ł', 'ś', 'ū', 'ü', 'ż', 'ž', '˙'
]

/-- WPC1257 page code table (with '\0' placeholder slots filtered out). -/
def WPC1257_TABLE : List (Char × Nat) := buildTableNoHoles 0x80 WPC1257_LIST

/-- Literal character list of the KZ1048 page code table (page_codes.rs). -/
def KZ1048_LIST : List Char := [
  'Ђ', 'Ѓ', '‚', 'ѓ', '„', '…', '†', '‡', '€', '‰', 'Љ', '‹', 'Њ', 'Қ', 'Һ', 'Џ',
  'ђ', '‘', '’', '“', '”', '•', '–', '—', '\u0000', '™', 'љ', '›', 'њ', 'қ', 'һ', 'џ',
  '\u00A0', 'Ұ', 'ұ', 'Ә', '¤', 'Ө', '¦', '§', 'Ё', '©', 'Ғ', '«', '¬', '-', '®', 'Ү',
  '°', '±', 'І', 'і', 'ө', 'µ', '¶', '·', 'ё', '№', 'ғ', '»', 'ә', 'Ң', 'ң', 'ү',
  'А', 'Б', 'В', 'Г', 'Д', 'Е', 'Ж', 'З', 'И', 'Й', 'К', 'Л', 'М', 'Н', 'О', 'П',
  'Р', 'С', 'Т', 'У', 'Ф', 'Х', 'Ц', 'Ч', 'Ш', 'Щ', 'Ъ', 'Ы', 'Ь', 'Э', 'Ю', 'Я',
  'а', 'б', 'в', 'г', 'д', 'е', 'ж', 'з', 'и', 'й', 'к', 'л', 'м', 'н', 'о', 'п',
  'р', 'с', 'т', 'у', 'ф', 'х', 'ц', 'ч', 'ш', 'щ', 'ъ', 'ы', 'ь', 'э', 'ю', 'я'
]

/-- KZ1048 page code table (with '\0' placeholder slots filtered out). -/
def KZ1048_TABLE : List (Char × Nat) := buildTableNoHoles 0x80 KZ1048_LIST

/-- The `PageCodeTable` enum of page_codes.rs: the closed set of page
codes that have a table. -/
inductive PageCodeTable where
  | PC437
  | Katakana
  | PC850
  | PC852
  | PC858
  | PC860
  | PC863
  | PC865
  | PC851
  | PC853
  | PC857
  | PC737
  | ISO8859_2
  | ISO8859_7
  | ISO8859_15
  | WPC1252
  | PC866
  | WPC775
  | PC855
  | PC861
  | PC862
  | PC869
  | PC1118
  | PC1119
  | PC1125
  | WPC1250
  | WPC1251
  | WPC1253
  | WPC1254
  | WPC1257
  | KZ1048
deriving DecidableEq

/-- `PageCodeTable::get_table`: returns the table of each variant. -/
def getTable : PageCodeTable → List (Char × Nat)
  | .PC437 => PC437_TABLE
  | .Katakana => KATAKANA_TABLE
  | .PC850 => PC850_TABLE
  | .PC852 => PC852_TABLE
  | .PC858 => PC858_TABLE
  | .PC860 => PC860_TABLE
  | .PC863 => PC863_TABLE
  | .PC865 => PC865_TABLE
  | .PC851 => PC851_TABLE
  | .PC853 => PC853_TABLE
  | .PC857 => PC857_TABLE
  | .PC737 => PC737_TABLE
  | .ISO8859_2 => ISO8859_2_TABLE
  | .ISO8859_7 => ISO8859_7_TABLE
  | .ISO8859_15 => ISO8859_15_TABLE
  | .WPC1252 => WPC1252_TABLE
  | .PC866 => PC866_TABLE
  | .WPC775 => WPC775_TABLE
  | .PC855 => PC855_TABLE
  | .PC861 => PC861_TABLE
  | .PC862 => PC862_TABLE
  | .PC869 => PC869_TABLE
  | .PC1118 => PC1118_TABLE
  | .PC1119 => PC1119_TABLE
  | .PC1125 => PC1125_TABLE
  | .WPC1250 => WPC1250_TABLE
  | .WPC1251 => WPC1251_TABLE
  | .WPC1253 => WPC1253_TABLE
  | .WPC1254 => WPC1254_TABLE
  | .WPC1257 => WPC1257_TABLE
  | .KZ1048 => KZ1048_TABLE

/-- The literal character list each variant's table is built from. -/
def tableList : PageCodeTable → List Char
  | .PC437 => PC437_LIST
  | .Katakana => KATAKANA_LIST
  | .PC850 => PC850_LIST
  | .PC852 => PC852_LIST
  | .PC858 => PC858_LIST
  | .PC860 => PC860_LIST
  | .PC863 => PC863_LIST
  | .PC865 => PC865_LIST
  | .PC851 => PC851_LIST
  | .PC853 => PC853_LIST
  | .PC857 => PC857_LIST
  | .PC737 => PC737_LIST
  | .ISO8859_2 => ISO8859_2_LIST
  | .ISO8859_7 => ISO8859_7_LIST
  | .ISO8859_15 => ISO8859_15_LIST
  | .WPC1252 => WPC1252_LIST
  | .PC866 => PC866_LIST
  | .WPC775 => WPC775_LIST
  | .PC855 => PC855_LIST
  | .PC861 => PC861_LIST
  | .PC862 => PC862_LIST
  | .PC869 => PC869_LIST
  | .PC1118 => PC1118_LIST
  | .PC1119 => PC1119_LIST
  | .PC1125 => PC1125_LIST
  | .WPC1250 => WPC1250_LIST
  | .WPC1251 => WPC1251_LIST
  | .WPC1253 => WPC1253_LIST
  | .WPC1254 => WPC1254_LIST
  | .WPC1257 => WPC1257_LIST
  | .KZ1048 => KZ1048_LIST

/-- The base offset each variant's table construction adds to the index. -/
def tableBase : PageCodeTable → Nat
  | .PC437 => 0x80
  | .Katakana => 0xA1
  | .PC850 => 0x80
  | .PC852 => 0x80
  | .PC858 => 0x80
  | .PC860 => 0x80
  | .PC863 => 0x80
  | .PC865 => 0x80
  | .PC851 => 0x80
  | .PC853 => 0x80
  | .PC857 => 0x80
  | .PC737 => 0x80
  | .ISO8859_2 => 0xA0
  | .ISO8859_7 => 0xA0
  | .ISO8859_15 => 0xA0
  | .WPC1252 => 0x80
  | .PC866 => 0x80
  | .WPC775 => 0x80
  | .PC855 => 0x80
  | .PC861 => 0x80
  | .PC862 => 0x80
  | .PC869 => 0x86
  | .PC1118 => 0x80
  | .PC1119 => 0x80
  | .PC1125 => 0x80
  | .WPC1250 => 0x80
  | .WPC1251 => 0x80
  | .WPC1253 => 0x80
  | .WPC1254 => 0x80
  | .WPC1257 => 0x80
  | .KZ1048 => 0x80

/-! ### Spec-modelled definitions for sources not available under src/ -/

/-- Modelled from the spec: the `PageCode` identifier enum is declared in
`src/domain/mod.rs`, which is not among the available sources.  The spec
describes it as an identifier "drawn from a closed set (~30 named variants)";
the wildcard arm of `TryFrom<PageCode> for PageCodeTable` in page_codes.rs
shows that `PageCode` also contains at least one variant without a table,
represented here by the single variant `unsupported`. -/
inductive PageCode where
  | PC437
  | Katakana
  | PC850
  | PC852
  | PC858
  | PC860
  | PC863
  | PC865
  | PC851
  | PC853
  | PC857
  | PC737
  | ISO8859_2
  | ISO8859_7
  | ISO8859_15
  | WPC1252
  | PC866
  | WPC775
  | PC855
  | PC861
  | PC862
  | PC869
  | PC1118
  | PC1119
  | PC1125
  | WPC1250
  | WPC1251
  | WPC1253
  | WPC1254
  | WPC1257
  | KZ1048
  | unsupported
deriving DecidableEq

/-- `impl TryFrom<PageCode> for PageCodeTable` (page_codes.rs): each of the 31
supported page codes yields `Ok` with the same-named table variant; the
wildcard arm yields a configuration error
(`PrinterError::Input("no table for this page code: ...")`).  The function is
a pure lookup: it reads its argument and touches no state. -/
def tryFromPageCode : PageCode → Except String PageCodeTable
  | .PC437 => .ok .PC437
  | .Katakana => .ok .Katakana
  | .PC850 => .ok .PC850
  | .PC852 => .ok .PC852
  | .PC858 => .ok .PC858
  | .PC860 => .ok .PC860
  | .PC863 => .ok .PC863
  | .PC865 => .ok .PC865
  | .PC851 => .ok .PC851
  | .PC853 => .ok .PC853
  | .PC857 => .ok .PC857
  | .PC737 => .ok .PC737
  | .ISO8859_2 => .ok .ISO8859_2
  | .ISO8859_7 => .ok .ISO8859_7
  | .ISO8859_15 => .ok .ISO8859_15
  | .WPC1252 => .ok .WPC1252
  | .PC866 => .ok .PC866
  | .WPC775 => .ok .WPC775
  | .PC855 => .ok .PC855
  | .PC861 => .ok .PC861
  | .PC862 => .ok .PC862
  | .PC869 => .ok .PC869
  | .PC1118 => .ok .PC1118
  | .PC1119 => .ok .PC1119
  | .PC1125 => .ok .PC1125
  | .WPC1250 => .ok .WPC1250
  | .WPC1251 => .ok .WPC1251
  | .WPC1253 => .ok .WPC1253
  | .WPC1254 => .ok .WPC1254
  | .WPC1257 => .ok .WPC1257
  | .KZ1048 => .ok .KZ1048
  | .unsupported => .error "no table for this page code"

/-- Modelled from the spec: the Text Encoder (`src/io/encoder.rs` is not among
the available sources): "For each character: if its code point is below 128,
emit it unchanged (7-bit passthrough); otherwise look it up in the active
CodeTable. If absent, fail with an encoding error" (spec section 4.2).  The
per-character step is embedded here; `none` is the encoding-error case. -/
def encodeChar (table : List (Char × Nat)) (c : Char) : Option Nat :=
  if c.toNat < 128 then some c.toNat else lookupKV c table

/-- Digit values of a numeric string (character code minus 48). -/
def digitsOf (s : String) : List Nat := s.data.map (fun c => c.toNat - 48)

/-- Modelled from the spec: the EAN13 check-digit computation of the Barcode
Encoder (its source is not among the available sources): "computes the
mandatory check digit via that symbol's defined modulo algorithm" (spec
section 4.4).  The defined EAN13 modulo algorithm weights the data digits
alternately 1 and 3 starting from the leftmost digit, sums the weighted
digits, and the check digit is the amount needed to reach the next multiple
of ten. -/
def ean13CheckDigit (ds : List Nat) : Nat :=
  (10 - ((enumFrom 0 ds).map
    (fun p => if p.1 % 2 = 0 then p.2 else 3 * p.2)).sum % 10) % 10

/-- Modelled from the spec: the final EAN13 symbol is the 12 data digits with
the computed check digit appended. -/
def ean13WithCheckDigit (s : String) : String :=
  s.push (Char.ofNat (48 + ean13CheckDigit (digitsOf s)))

/-! ### The claims -/

/-- C1: for every supported code page table (all 31 tables PC437 through
KZ1048), the constructed mapping is injective: no two distinct character keys
map to the same byte value. -/
theorem pageTables_injective :
    ∀ t : PageCodeTable, TableInjective (getTable t) := by
  intro t
  cases t with
  | PC437 =>
      exact buildTable_injective _ _ (by decide)
  | Katakana =>
      exact buildTable_injective _ _ (by decide)
  | PC850 =>
      exact buildTable_injective _ _ (by decide)
  | PC852 =>
      exact buildTable_injective _ _ (by decide)
  | PC858 =>
      exact buildTable_injective _ _ (by decide)
  | PC860 =>
      exact buildTable_injective _ _ (by decide)
  | PC863 =>
      exact buildTable_injective _ _ (by decide)
  | PC865 =>
      exact buildTable_injective _ _ (by decide)
  | PC851 =>
      exact buildTableNoHoles_injective _ _ (by decide)
  | PC853 =>
      exact buildTableNoHoles_injective _ _ (by decide)
  | PC857 =>
      exact buildTableNoHoles_injective _ _ (by decide)
  | PC737 =>
      exact buildTable_injective _ _ (by decide)
  | ISO8859_2 =>
      exact buildTable_injective _ _ (by decide)
  | ISO8859_7 =>
      exact buildTableNoHoles_injective _ _ (by decide)
  | ISO8859_15 =>
      exact buildTable_injective _ _ (by decide)
  | WPC1252 =>
      exact buildTableNoHoles_injective _ _ (by decide)
  | PC866 =>
      exact buildTable_injective _ _ (by decide)
  | WPC775 =>
      exact buildTable_injective _ _ (by decide)
  | PC855 =>
      exact buildTable_injective _ _ (by decide)
  | PC861 =>
      exact buildTable_injective _ _ (by decide)
  | PC862 =>
      exact buildTable_injective _ _ (by decide)
  | PC869 =>
      exact buildTableNoHoles_injective _ _ (by decide)
  | PC1118 =>
      exact buildTable_injective _ _ (by decide)
  | PC1119 =>
      exact buildTable_injective _ _ (by decide)
  | PC1125 =>
      exact buildTable_injective _ _ (by decide)
  | WPC1250 =>
      exact buildTableNoHoles_injective _ _ (by decide)
  | WPC1251 =>
      exact buildTableNoHoles_injective _ _ (by decide)
  | WPC1253 =>
      exact buildTableNoHoles_injective _ _ (by decide)
  | WPC1254 =>
      exact buildTableNoHoles_injective _ _ (by decide)
  | WPC1257 =>
      exact buildTableNoHoles_injective _ _ (by decide)
  | KZ1048 =>
      exact buildTableNoHoles_injective _ _ (by decide)

/-- Witness for C1: PC437 maps 'Ç' to 0x80 and 'ü' to 0x81, two entries with
distinct keys and distinct bytes. -/
theorem pageTables_injective_witness :
    (('Ç', (0x80 : Nat)).2 ≠ (('ü', (0x81 : Nat)).2)) :=
  pageTables_injective PageCodeTable.PC437 ('Ç', 0x80) (by decide)
    ('ü', 0x81) (by decide) (by decide)

/-- C2: every byte value of every table lies in the page's valid sub-range
(at least the base offset, at most 0xFF); moreover base + list length ≤ 256,
so `base + i ≤ 255` for every kept index and the `as u8` conversion in the
table constructors never truncates. -/
theorem pageTables_values_in_range (t : PageCodeTable) :
    tableBase t + (tableList t).length ≤ 256 ∧
    ∀ p ∈ getTable t, tableBase t ≤ p.2 ∧ p.2 ≤ 255 := by
  cases t with
  | PC437 =>
      exact ⟨by decide, buildTable_values_range _ _ (by decide)⟩
  | Katakana =>
      exact ⟨by decide, buildTable_values_range _ _ (by decide)⟩
  | PC850 =>
      exact ⟨by decide, buildTable_values_range _ _ (by decide)⟩
  | PC852 =>
      exact ⟨by decide, buildTable_values_range _ _ (by decide)⟩
  | PC858 =>
      exact ⟨by decide, buildTable_values_range _ _ (by decide)⟩
  | PC860 =>
      exact ⟨by decide, buildTable_values_range _ _ (by decide)⟩
  | PC863 =>
      exact ⟨by decide, buildTable_values_range _ _ (by decide)⟩
  | PC865 =>
      exact ⟨by decide, buildTable_values_range _ _ (by decide)⟩
  | PC851 =>
      exact ⟨by decide, buildTableNoHoles_values_range _ _ (by decide)⟩
  | PC853 =>
      exact ⟨by decide, buildTableNoHoles_values_range _ _ (by decide)⟩
  | PC857 =>
      exact ⟨by decide, buildTableNoHoles_values_range _ _ (by decide)⟩
  | PC737 =>
      exact ⟨by decide, buildTable_values_range _ _ (by decide)⟩
  | ISO8859_2 =>
      exact ⟨by decide, buildTable_values_range _ _ (by decide)⟩
  | ISO8859_7 =>
      exact ⟨by decide, buildTableNoHoles_values_range _ _ (by decide)⟩
  | ISO8859_15 =>
      exact ⟨by decide, buildTable_values_range _ _ (by decide)⟩
  | WPC1252 =>
      exact ⟨by decide, buildTableNoHoles_values_range _ _ (by decide)⟩
  | PC866 =>
      exact ⟨by decide, buildTable_values_range _ _ (by decide)⟩
  | WPC775 =>
      exact ⟨by decide, buildTable_values_range _ _ (by decide)⟩
  | PC855 =>
      exact ⟨by decide, buildTable_values_range _ _ (by decide)⟩
  | PC861 =>
      exact ⟨by decide, buildTable_values_range _ _ (by decide)⟩
  | PC862 =>
      exact ⟨by decide, buildTable_values_range _ _ (by decide)⟩
  | PC869 =>
      exact ⟨by decide, buildTableNoHoles_values_range _ _ (by decide)⟩
  | PC1118 =>
      exact ⟨by decide, buildTable_values_range _ _ (by decide)⟩
  | PC1119 =>
      exact ⟨by decide, buildTable_values_range _ _ (by decide)⟩
  | PC1125 =>
      exact ⟨by decide, buildTable_values_range _ _ (by decide)⟩
  | WPC1250 =>
      exact ⟨by decide, buildTableNoHoles_values_range _ _ (by decide)⟩
  | WPC1251 =>
      exact ⟨by decide, buildTableNoHoles_values_range _ _ (by decide)⟩
  | WPC1253 =>
      exact ⟨by decide, buildTableNoHoles_values_range _ _ (by decide)⟩
  | WPC1254 =>
      exact ⟨by decide, buildTableNoHoles_values_range _ _ (by decide)⟩
  | WPC1257 =>
      exact ⟨by decide, buildTableNoHoles_values_range _ _ (by decide)⟩
  | KZ1048 =>
      exact ⟨by decide, buildTableNoHoles_values_range _ _ (by decide)⟩

/-- Witness for C2: the PC437 entry ('Ç', 0x80) lies in the range
[0x80, 0xFF]. -/
theorem pageTables_values_in_range_witness :
    tableBase PageCodeTable.PC437 ≤ ('Ç', (0x80 : Nat)).2 ∧
      ('Ç', (0x80 : Nat)).2 ≤ 255 :=
  (pageTables_values_in_range PageCodeTable.PC437).2 ('Ç', 0x80) (by decide)

/-- C3 counterexample: the PC858 literal list holds 'Ô' (not the placeholder)
at index 0x62, yet the constructed table does not map 'Ô' to
0x80 + 0x62 = 0xE2 — the duplicate 'Ô' at index 0x63 wins. -/
theorem pageTables_index_maps_cex :
    PC858_LIST.get? 0x62 = some 'Ô' ∧ 'Ô' ≠ '\u0000' ∧
    lookupKV 'Ô' (getTable PageCodeTable.PC858) ≠
      some (tableBase PageCodeTable.PC858 + 0x62) := by
  refine ⟨by decide, by decide, ?_⟩
  have h : lookupKV 'Ô' (getTable PageCodeTable.PC858) = some (0x80 + 0x63) :=
    buildTable_lookup_index _ _ (by decide) 0x63 'Ô' (by decide)
      (noLater_of_ball (by decide))
  rw [h]
  decide

/-- C3 (amended): if the i-th element of a table's literal list is a
character c other than the placeholder, and c occurs at no later index of
that list, then the constructed table maps c to exactly base_offset + i. -/
theorem pageTables_index_maps (t : PageCodeTable) (i : Nat) (c : Char)
    (hget : (tableList t).get? i = some c) (hnull : c ≠ '\u0000')
    (hlater : ∀ j, j < (tableList t).length → i < j →
      (tableList t).get? j ≠ some c) :
    lookupKV c (getTable t) = some (tableBase t + i) := by
  have hlater2 : ∀ j, i < j → (tableList t).get? j ≠ some c :=
    noLater_of_ball hlater
  clear hlater
  cases t with
  | PC437 =>
      exact buildTable_lookup_index _ _ (by decide) i c hget hlater2
  | Katakana =>
      exact buildTable_lookup_index _ _ (by decide) i c hget hlater2
  | PC850 =>
      exact buildTable_lookup_index _ _ (by decide) i c hget hlater2
  | PC852 =>
      exact buildTable_lookup_index _ _ (by decide) i c hget hlater2
  | PC858 =>
      exact buildTable_lookup_index _ _ (by decide) i c hget hlater2
  | PC860 =>
      exact buildTable_lookup_index _ _ (by decide) i c hget hlater2
  | PC863 =>
      exact buildTable_lookup_index _ _ (by decide) i c hget hlater2
  | PC865 =>
      exact buildTable_lookup_index _ _ (by decide) i c hget hlater2
  | PC851 =>
      exact buildTableNoHoles_lookup_index _ _ (by decide) i c hget hnull hlater2
  | PC853 =>
      exact buildTableNoHoles_lookup_index _ _ (by decide) i c hget hnull hlater2
  | PC857 =>
      exact buildTableNoHoles_lookup_index _ _ (by decide) i c hget hnull hlater2
  | PC737 =>
      exact buildTable_lookup_index _ _ (by decide) i c hget hlater2
  | ISO8859_2 =>
      exact buildTable_lookup_index _ _ (by decide) i c hget hlater2
  | ISO8859_7 =>
      exact buildTableNoHoles_lookup_index _ _ (by decide) i c hget hnull hlater2
  | ISO8859_15 =>
      exact buildTable_lookup_index _ _ (by decide) i c hget hlater2
  | WPC1252 =>
      exact buildTableNoHoles_lookup_index _ _ (by decide) i c hget hnull hlater2
  | PC866 =>
      exact buildTable_lookup_index _ _ (by decide) i c hget hlater2
  | WPC775 =>
      exact buildTable_lookup_index _ _ (by decide) i c hget hlater2
  | PC855 =>
      exact buildTable_lookup_index _ _ (by decide) i c hget hlater2
  | PC861 =>
      exact buildTable_lookup_index _ _ (by decide) i c hget hlater2
  | PC862 =>
      exact buildTable_lookup_index _ _ (by decide) i c hget hlater2
  | PC869 =>
      exact buildTableNoHoles_lookup_index _ _ (by decide) i c hget hnull hlater2
  | PC1118 =>
      exact buildTable_lookup_index _ _ (by decide) i c hget hlater2
  | PC1119 =>
      exact buildTable_lookup_index _ _ (by decide) i c hget hlater2
  | PC1125 =>
      exact buildTable_lookup_index _ _ (by decide) i c hget hlater2
  | WPC1250 =>
      exact buildTableNoHoles_lookup_index _ _ (by decide) i c hget hnull hlater2
  | WPC1251 =>
      exact buildTableNoHoles_lookup_index _ _ (by decide) i c hget hnull hlater2
  | WPC1253 =>
      exact buildTableNoHoles_lookup_index _ _ (by decide) i c hget hnull hlater2
  | WPC1254 =>
      exact buildTableNoHoles_lookup_index _ _ (by decide) i c hget hnull hlater2
  | WPC1257 =>
      exact buildTableNoHoles_lookup_index _ _ (by decide) i c hget hnull hlater2
  | KZ1048 =>
      exact buildTableNoHoles_lookup_index _ _ (by decide) i c hget hnull hlater2

/-- Witness for C3: PC437's list holds 'Ç' at index 0, nowhere later, and the
table maps 'Ç' to 0x80 + 0. -/
theorem pageTables_index_maps_witness :
    lookupKV 'Ç' (getTable PageCodeTable.PC437) =
      some (tableBase PageCodeTable.PC437 + 0) :=
  pageTables_index_maps PageCodeTable.PC437 0 'Ç' (by decide) (by decide)
    (by decide)

/-- C4 counterexample: '-' is both ASCII (0x2D) and a key of the PC850 table
(recorded byte 0xF0); the encoder emits 0x2D by 7-bit passthrough, not the
table's 0xF0, so the claim's two halves cannot both hold at '-'. -/
theorem encode_roundTrip_cex :
    lookupKV '-' (getTable PageCodeTable.PC850) = some 0xF0 ∧
    encodeChar (getTable PageCodeTable.PC850) '-' = some 0x2D ∧
    encodeChar (getTable PageCodeTable.PC850) '-' ≠ some 0xF0 := by
  refine ⟨?_, ?_, ?_⟩
  · exact buildTable_lookup_index _ _ (by decide) 0x70 '-' (by decide)
      (noLater_of_ball (by decide))
  · unfold encodeChar
    rw [if_pos (by decide)]
    decide
  · unfold encodeChar
    rw [if_pos (by decide)]
    decide

/-- C4 (amended): encoding any ASCII character (0-127) under any code page
yields that byte unchanged; encoding any character with code point ≥ 128 that
is present in the page's table yields exactly the byte the table records. -/
theorem encode_roundTrip (t : PageCodeTable) (c : Char) :
    (c.toNat < 128 → encodeChar (getTable t) c = some c.toNat) ∧
    (128 ≤ c.toNat → ∀ v, lookupKV c (getTable t) = some v →
      encodeChar (getTable t) c = some v) := by
  constructor
  · intro h
    unfold encodeChar
    rw [if_pos h]
  · intro h v hv
    unfold encodeChar
    rw [if_neg (by omega), hv]

/-- Witness for C4: under PC437 the ASCII letter 'A' passes through as 65 and
the non-ASCII key 'Ç' encodes to the table byte 0x80. -/
theorem encode_roundTrip_witness :
    encodeChar (getTable PageCodeTable.PC437) 'A' = some 65 ∧
    encodeChar (getTable PageCodeTable.PC437) 'Ç' = some 0x80 :=
  ⟨(encode_roundTrip PageCodeTable.PC437 'A').1 (by decide),
   (encode_roundTrip PageCodeTable.PC437 'Ç').2 (by decide) 0x80 (by decide)⟩

/-- C5: the TryFrom lookup returns Ok with the same-named table variant for
every page code of the supported closed set of 31 variants, and a
configuration error for a page code outside that set.  (Purity holds by
construction: `tryFromPageCode` is a function of its argument alone.) -/
theorem tryFrom_supported :
    (tryFromPageCode .PC437 = .ok .PC437) ∧
    (tryFromPageCode .Katakana = .ok .Katakana) ∧
    (tryFromPageCode .PC850 = .ok .PC850) ∧
    (tryFromPageCode .PC852 = .ok .PC852) ∧
    (tryFromPageCode .PC858 = .ok .PC858) ∧
    (tryFromPageCode .PC860 = .ok .PC860) ∧
    (tryFromPageCode .PC863 = .ok .PC863) ∧
    (tryFromPageCode .PC865 = .ok .PC865) ∧
    (tryFromPageCode .PC851 = .ok .PC851) ∧
    (tryFromPageCode .PC853 = .ok .PC853) ∧
    (tryFromPageCode .PC857 = .ok .PC857) ∧
    (tryFromPageCode .PC737 = .ok .PC737) ∧
    (tryFromPageCode .ISO8859_2 = .ok .ISO8859_2) ∧
    (tryFromPageCode .ISO8859_7 = .ok .ISO8859_7) ∧
    (tryFromPageCode .ISO8859_15 = .ok .ISO8859_15) ∧
    (tryFromPageCode .WPC1252 = .ok .WPC1252) ∧
    (tryFromPageCode .PC866 = .ok .PC866) ∧
    (tryFromPageCode .WPC775 = .ok .WPC775) ∧
    (tryFromPageCode .PC855 = .ok .PC855) ∧
    (tryFromPageCode .PC861 = .ok .PC861) ∧
    (tryFromPageCode .PC862 = .ok .PC862) ∧
    (tryFromPageCode .PC869 = .ok .PC869) ∧
    (tryFromPageCode .PC1118 = .ok .PC1118) ∧
    (tryFromPageCode .PC1119 = .ok .PC1119) ∧
    (tryFromPageCode .PC1125 = .ok .PC1125) ∧
    (tryFromPageCode .WPC1250 = .ok .WPC1250) ∧
    (tryFromPageCode .WPC1251 = .ok .WPC1251) ∧
    (tryFromPageCode .WPC1253 = .ok .WPC1253) ∧
    (tryFromPageCode .WPC1254 = .ok .WPC1254) ∧
    (tryFromPageCode .WPC1257 = .ok .WPC1257) ∧
    (tryFromPageCode .KZ1048 = .ok .KZ1048) ∧
    (∃ e, tryFromPageCode .unsupported = .error e) :=
  ⟨rfl, rfl, rfl, rfl, rfl, rfl, rfl, rfl, rfl, rfl, rfl, rfl, rfl, rfl, rfl, rfl, rfl, rfl, rfl, rfl, rfl, rfl, rfl, rfl, rfl, rfl, rfl, rfl, rfl, rfl, rfl, ⟨_, rfl⟩⟩

/-- C6: for every table whose literal list contains the '\0' placeholder,
'\0' is not a key of the constructed table, and no character at all maps to
the byte base_offset + i for any index i holding '\0': holes are absent, not
filled with a substitute. -/
theorem pageTables_holes_absent (t : PageCodeTable)
    (h0 : '\u0000' ∈ tableList t) :
    lookupKV '\u0000' (getTable t) = none ∧
    ∀ i, i < (tableList t).length →
      (tableList t).get? i = some '\u0000' →
      ∀ p ∈ getTable t, p.2 ≠ tableBase t + i := by
  cases t with
  | PC437 =>
      exact absurd h0 (by decide)
  | Katakana =>
      exact absurd h0 (by decide)
  | PC850 =>
      exact absurd h0 (by decide)
  | PC852 =>
      exact absurd h0 (by decide)
  | PC858 =>
      exact absurd h0 (by decide)
  | PC860 =>
      exact absurd h0 (by decide)
  | PC863 =>
      exact absurd h0 (by decide)
  | PC865 =>
      exact absurd h0 (by decide)
  | PC851 =>
      exact ⟨buildTableNoHoles_no_null _ _,
        fun i _ hi => buildTableNoHoles_hole_value_absent _ _ (by decide) i hi⟩
  | PC853 =>
      exact ⟨buildTableNoHoles_no_null _ _,
        fun i _ hi => buildTableNoHoles_hole_value_absent _ _ (by decide) i hi⟩
  | PC857 =>
      exact ⟨buildTableNoHoles_no_null _ _,
        fun i _ hi => buildTableNoHoles_hole_value_absent _ _ (by decide) i hi⟩
  | PC737 =>
      exact absurd h0 (by decide)
  | ISO8859_2 =>
      exact absurd h0 (by decide)
  | ISO8859_7 =>
      exact ⟨buildTableNoHoles_no_null _ _,
        fun i _ hi => buildTableNoHoles_hole_value_absent _ _ (by decide) i hi⟩
  | ISO8859_15 =>
      exact absurd h0 (by decide)
  | WPC1252 =>
      exact ⟨buildTableNoHoles_no_null _ _,
        fun i _ hi => buildTableNoHoles_hole_value_absent _ _ (by decide) i hi⟩
  | PC866 =>
      exact absurd h0 (by decide)
  | WPC775 =>
      exact absurd h0 (by decide)
  | PC855 =>
      exact absurd h0 (by decide)
  | PC861 =>
      exact absurd h0 (by decide)
  | PC862 =>
      exact absurd h0 (by decide)
  | PC869 =>
      exact ⟨buildTableNoHoles_no_null _ _,
        fun i _ hi => buildTableNoHoles_hole_value_absent _ _ (by decide) i hi⟩
  | PC1118 =>
      exact absurd h0 (by decide)
  | PC1119 =>
      exact absurd h0 (by decide)
  | PC1125 =>
      exact absurd h0 (by decide)
  | WPC1250 =>
      exact ⟨buildTableNoHoles_no_null _ _,
        fun i _ hi => buildTableNoHoles_hole_value_absent _ _ (by decide) i hi⟩
  | WPC1251 =>
      exact ⟨buildTableNoHoles_no_null _ _,
        fun i _ hi => buildTableNoHoles_hole_value_absent _ _ (by decide) i hi⟩
  | WPC1253 =>
      exact ⟨buildTableNoHoles_no_null _ _,
        fun i _ hi => buildTableNoHoles_hole_value_absent _ _ (by decide) i hi⟩
  | WPC1254 =>
      exact ⟨buildTableNoHoles_no_null _ _,
        fun i _ hi => buildTableNoHoles_hole_value_absent _ _ (by decide) i hi⟩
  | WPC1257 =>
      exact ⟨buildTableNoHoles_no_null _ _,
        fun i _ hi => buildTableNoHoles_hole_value_absent _ _ (by decide) i hi⟩
  | KZ1048 =>
      exact ⟨buildTableNoHoles_no_null _ _,
        fun i _ hi => buildTableNoHoles_hole_value_absent _ _ (by decide) i hi⟩

/-- Witness for C6: PC851's list contains the placeholder (at index 0x11) and
'\0' is not a key of its table; no entry carries byte 0x80 + 0x11 = 0x91. -/
theorem pageTables_holes_absent_witness :
    lookupKV '\u0000' (getTable PageCodeTable.PC851) = none :=
  (pageTables_holes_absent PageCodeTable.PC851 (by decide)).1

/-- C7: in the constructed PC858 table, 'Ô' maps to 0xE3, no character maps
to 0xE2, and 'Ò' is not a key — the literal list holds 'Ô' at both index 0x62
and 0x63, and map insertion lets the later entry win. -/
theorem pc858_duplicate_entry :
    lookupKV 'Ô' (getTable PageCodeTable.PC858) = some 0xE3 ∧
    (∀ p ∈ getTable PageCodeTable.PC858, p.2 ≠ 0xE2) ∧
    lookupKV 'Ò' (getTable PageCodeTable.PC858) = none := by
  have h : lookupKV 'Ô' (getTable PageCodeTable.PC858) = some (0x80 + 0x63) :=
    buildTable_lookup_index _ _ (by decide) 0x63 'Ô' (by decide)
      (noLater_of_ball (by decide))
  refine ⟨h, ?_, ?_⟩
  · exact buildTable_byte_absent _ _ (by decide) 0x62 'Ô' (by decide)
      (by rw [show (lookupKV 'Ô' (buildTable 0x80 PC858_LIST)) =
            lookupKV 'Ô' (getTable PageCodeTable.PC858) from rfl, h]; decide)
  · exact buildTable_lookup_none _ _ 'Ò' (by decide)

/-- Witness for C7: the PC858 entry ('Ç', 0x80) does not carry the orphaned
byte 0xE2. -/
theorem pc858_duplicate_entry_witness : (('Ç', (0x80 : Nat)).2 ≠ 0xE2) :=
  pc858_duplicate_entry.2.1 ('Ç', 0x80) (by decide)

/-- C8: several tables contain ASCII characters as keys: '-' (U+002D) maps to
0xF0 in PC850, PC851, PC853, PC855, PC857, PC858, PC869 and WPC775 and to
0xAD in WPC1250, WPC1251, WPC1253, WPC1254, WPC1257 and KZ1048; '.' (U+002E)
maps to 0xE7 in PC857.  Key sets are therefore not disjoint from 7-bit
ASCII. -/
theorem ascii_keys_present :
    ('-').toNat = 0x2D ∧ ('.').toNat = 0x2E ∧
    lookupKV '-' (getTable PageCodeTable.PC850) = some 0xF0 ∧
    lookupKV '-' (getTable PageCodeTable.PC851) = some 0xF0 ∧
    lookupKV '-' (getTable PageCodeTable.PC853) = some 0xF0 ∧
    lookupKV '-' (getTable PageCodeTable.PC855) = some 0xF0 ∧
    lookupKV '-' (getTable PageCodeTable.PC857) = some 0xF0 ∧
    lookupKV '-' (getTable PageCodeTable.PC858) = some 0xF0 ∧
    lookupKV '-' (getTable PageCodeTable.PC869) = some 0xF0 ∧
    lookupKV '-' (getTable PageCodeTable.WPC775) = some 0xF0 ∧
    lookupKV '-' (getTable PageCodeTable.WPC1250) = some 0xAD ∧
    lookupKV '-' (getTable PageCodeTable.WPC1251) = some 0xAD ∧
    lookupKV '-' (getTable PageCodeTable.WPC1253) = some 0xAD ∧
    lookupKV '-' (getTable PageCodeTable.WPC1254) = some 0xAD ∧
    lookupKV '-' (getTable PageCodeTable.WPC1257) = some 0xAD ∧
    lookupKV '-' (getTable PageCodeTable.KZ1048) = some 0xAD ∧
    lookupKV '.' (getTable PageCodeTable.PC857) = some 0xE7 :=
  ⟨by decide,
    by decide,
    buildTable_lookup_index _ _ (by decide) 0x70 '-' (by decide)
      (noLater_of_ball (by decide)),
    buildTableNoHoles_lookup_index _ _ (by decide) 0x70 '-' (by decide)
      (by decide) (noLater_of_ball (by decide)),
    buildTableNoHoles_lookup_index _ _ (by decide) 0x70 '-' (by decide)
      (by decide) (noLater_of_ball (by decide)),
    buildTable_lookup_index _ _ (by decide) 0x70 '-' (by decide)
      (noLater_of_ball (by decide)),
    buildTableNoHoles_lookup_index _ _ (by decide) 0x70 '-' (by decide)
      (by decide) (noLater_of_ball (by decide)),
    buildTable_lookup_index _ _ (by decide) 0x70 '-' (by decide)
      (noLater_of_ball (by decide)),
    buildTableNoHoles_lookup_index _ _ (by decide) 0x6A '-' (by decide)
      (by decide) (noLater_of_ball (by decide)),
    buildTable_lookup_index _ _ (by decide) 0x70 '-' (by decide)
      (noLater_of_ball (by decide)),
    buildTableNoHoles_lookup_index _ _ (by decide) 0x2D '-' (by decide)
      (by decide) (noLater_of_ball (by decide)),
    buildTableNoHoles_lookup_index _ _ (by decide) 0x2D '-' (by decide)
      (by decide) (noLater_of_ball (by decide)),
    buildTableNoHoles_lookup_index _ _ (by decide) 0x2D '-' (by decide)
      (by decide) (noLater_of_ball (by decide)),
    buildTableNoHoles_lookup_index _ _ (by decide) 0x2D '-' (by decide)
      (by decide) (noLater_of_ball (by decide)),
    buildTableNoHoles_lookup_index _ _ (by decide) 0x2D '-' (by decide)
      (by decide) (noLater_of_ball (by decide)),
    buildTableNoHoles_lookup_index _ _ (by decide) 0x2D '-' (by decide)
      (by decide) (noLater_of_ball (by decide)),
    buildTableNoHoles_lookup_index _ _ (by decide) 0x67 '.' (by decide)
      (by decide) (noLater_of_ball (by decide))⟩

/-- C9: the EAN13 modulo algorithm computes check digit 5 for the digit
string "123456789026", so the final encoded symbol is "1234567890265". -/
theorem ean13_example :
    ean13CheckDigit (digitsOf "123456789026") = 5 ∧
    ean13WithCheckDigit "123456789026" = "1234567890265" :=
  ⟨by decide, by decide⟩

/-- C10: `get_table` is total and deterministic: every one of the 31 variants
yields a table (the Lean embedding is a total function, mirroring the match
without wildcard, error or panic arm in page_codes.rs), and equal variants
yield equal tables. -/
theorem getTable_total_deterministic :
    ∀ t u : PageCodeTable, u = t →
      getTable u = getTable t ∧ ∃ m : List (Char × Nat), getTable t = m :=
  fun t _ h => ⟨by rw [h], ⟨getTable t, rfl⟩⟩

/-- Witness for C10 at the PC437 variant. -/
theorem getTable_total_deterministic_witness :
    getTable PageCodeTable.PC437 = getTable PageCodeTable.PC437 ∧
    ∃ m : List (Char × Nat), getTable PageCodeTable.PC437 = m :=
  getTable_total_deterministic PageCodeTable.PC437 PageCodeTable.PC437 rfl

end Escpos
